import Mathlib


/-!
# Synthetic front end of `stereoVIOSimulation.cpp`

A shallow embedding of the three core pieces of `main` in
`src/examples/stereoVIOSimulation.cpp`:

* the track lifecycle bookkeeping (lines 259-285),
* the synthesis of one stereo measurement (lines 287-309),
* the feature-selection budget dispatcher (lines 327-393),

together with the per-keyframe loop that glues them (lines 249-400).

Conventions of the embedding.

* `int` and `long long int` values (ages, `maxFeatureAge_`,
  `maxFeaturesPerFrame_`, identifiers, `landmarkCount`) are unbounded `Int`;
  signed overflow is undefined behaviour in C++ and no run of the program
  relies on wrap-around. Vector sizes are `Nat`.
* `double` values are rationals (`ℚ`); a pixel coordinate that is "missing"
  (`quiet_NaN`) is `none`. The pixel arithmetic of lines 287-309 is exact. The
  quotient of line 338 and the product of line 345, whose results are turned
  into an integer count and a nanosecond time, are rounded to IEEE-754
  binary64 by `toDouble`, and a parameter of these two lines given as a
  rational stands for the `double` nearest to it, as the decimal literal
  `0.4` does in `main`. Infinities and NaN are not modelled.
* `std::map` objects are functions; `operator[]` on `lmkIdToNewLmkId` reads
  `0` for a key that was never written (value initialisation), and `find` on
  `lmkIdToAge` is `none` exactly for the keys that were never written.
* a thrown exception is `Except.error`; nothing in the program catches one.
* calls into gtsam, the dataset parser, the random engine, the feature
  selector and the back end are parameters.
-/

namespace StereoVIOSimulation

/-! ## Data model -/

/-- Landmark and track identifiers, a `long long int` in the source. -/
abbrev LandmarkId := Int

/-- The type `gtsam::Point2`. -/
abbrev Point2 := ℚ × ℚ

/-- The type `gtsam::Point3` / `gtsam::Vector3`. -/
abbrev Vector3 := ℚ × ℚ × ℚ

/-- The type `gtsam::StereoPoint2`: `uR` is `none` where the source stores
`quiet_NaN` ("missing pixel information"). -/
structure StereoPoint2 where
  uL : ℚ
  uR : Option ℚ
  v : ℚ
  deriving DecidableEq, Repr

/-- One element of `SmartStereoMeasurements`: a track identifier and its pixel. -/
abbrev SmartStereoMeasurement := LandmarkId × StereoPoint2

/-- The struct `FeatureObservation` of the source (lines 29-33). -/
structure FeatureObservation where
  lmkId : LandmarkId
  px : Point2
  sigma : ℚ
  deriving DecidableEq, Repr

/-- The exceptions that the modelled code can throw. -/
inductive SimError where
  | pixelProjectionMismatch
  | keypointAgeInconsistent
  | outOfRange
  deriving DecidableEq, Repr

/-- The enum `VioFrontEndParams::FeatureSelectionCriterion`. -/
inductive FeatureSelectionCriterion where
  | QUALITY
  | MIN_EIG
  | LOGDET
  deriving DecidableEq, Repr

/-- The fields of `VioFrontEndParams` that the modelled code reads. -/
structure VioFrontEndParams where
  maxFeatureAge_ : Int
  maxFeaturesPerFrame_ : Int
  featureSelectionCriterion_ : FeatureSelectionCriterion
  deriving DecidableEq, Repr

/-! ## Track lifecycle (lines 98, 200-201, 259-285) -/

/-- The three variables the lifecycle code mutates: `lmkIdToAge`,
`lmkIdToNewLmkId` and `landmarkCount`. -/
structure LifecycleState where
  lmkIdToAge : LandmarkId → Option Int
  lmkIdToNewLmkId : LandmarkId → LandmarkId
  landmarkCount : Int

/-- Assignment `m[k] = v` on a map modelled as a function. -/
def mapSet {β : Type} (m : LandmarkId → β) (k : LandmarkId) (v : β) : LandmarkId → β :=
  fun j => if j = k then v else m j

/-- The read `lmkIdToAge[lid]`. -/
def ageOf (s : LifecycleState) (lid : LandmarkId) : Int :=
  (s.lmkIdToAge lid).getD 0

/-- Number of keys of `landmarkPositions` after the rows of `landmarks.csv`
have been stored with `landmarkPositions[landmarkId] = landmarkPosition`
(lines 83-95): a repeated identifier overwrites its entry. -/
def landmarkPositionsSize (rows : List (LandmarkId × Vector3)) : Int :=
  ((rows.map Prod.fst).dedup.length : Int)

/-- The read `landmarkPositions[lid]`: the last row stored for `lid`, or a
value-initialised point when the table has no such row. -/
def landmarkPositions (rows : List (LandmarkId × Vector3)) (lid : LandmarkId) : Vector3 :=
  match rows.reverse.find? (fun r => r.1 == lid) with
  | some r => r.2
  | none => (0, 0, 0)

/-- State before the first keyframe: both maps empty (lines 200-201) and
`landmarkCount = landmarkPositions.size()` (line 98). -/
def initialState (rows : List (LandmarkId × Vector3)) : LifecycleState where
  lmkIdToAge := fun _ => none
  lmkIdToNewLmkId := fun _ => 0
  landmarkCount := landmarkPositionsSize rows

/-- Lines 261-266: first sighting or one more frame. -/
def noteSighting (s : LifecycleState) (lid : LandmarkId) : LifecycleState :=
  match s.lmkIdToAge lid with
  | none =>
    { s with
      lmkIdToNewLmkId := mapSet s.lmkIdToNewLmkId lid lid
      lmkIdToAge := mapSet s.lmkIdToAge lid (some 0) }
  | some a => { s with lmkIdToAge := mapSet s.lmkIdToAge lid (some (a + 1)) }

/-- Lines 269-274: the loop that looks for the current track identifier among
the identifiers of `previousSmartStereoMeasurements`. -/
def seenInPreviosKeyframe (s : LifecycleState) (lid : LandmarkId)
    (previousKeyframeTrackIds : List LandmarkId) : Bool :=
  previousKeyframeTrackIds.any (fun id => decide (s.lmkIdToNewLmkId lid = id))

/-- Lines 268-277: a landmark of positive age whose track identifier is not in
the previous batch gets age `maxFeatureAge_ + 1`. -/
def loopClosureCheck (maxFeatureAge_ : Int) (s : LifecycleState) (lid : LandmarkId)
    (previousKeyframeTrackIds : List LandmarkId) : LifecycleState :=
  if ageOf s lid > 0 then
    if seenInPreviosKeyframe s lid previousKeyframeTrackIds then s
    else { s with lmkIdToAge := mapSet s.lmkIdToAge lid (some (maxFeatureAge_ + 1)) }
  else s

/-- Lines 279-285: a track that is too old gets a new name and a new history. -/
def retireIfTooOld (maxFeatureAge_ : Int) (s : LifecycleState) (lid : LandmarkId) :
    LifecycleState :=
  if ageOf s lid > maxFeatureAge_ then
    { lmkIdToAge := mapSet s.lmkIdToAge lid (some 0)
      lmkIdToNewLmkId := mapSet s.lmkIdToNewLmkId lid (s.landmarkCount + 1)
      landmarkCount := s.landmarkCount + 1 }
  else s

/-- The lifecycle update of one observation, lines 261-285. -/
def update (maxFeatureAge_ : Int) (s : LifecycleState) (lid : LandmarkId)
    (previousKeyframeTrackIds : List LandmarkId) : LifecycleState :=
  retireIfTooOld maxFeatureAge_
    (loopClosureCheck maxFeatureAge_ (noteSighting s lid) lid previousKeyframeTrackIds) lid

/-- Track identifier used to label the measurement: `lmkIdToNewLmkId[lid]`
read after the update (lines 313, 315). -/
def activeId (maxFeatureAge_ : Int) (s : LifecycleState) (lid : LandmarkId)
    (previousKeyframeTrackIds : List LandmarkId) : LandmarkId :=
  (update maxFeatureAge_ s lid previousKeyframeTrackIds).lmkIdToNewLmkId lid

/-- Age used to classify the measurement: `lmkIdToAge[lid]` read after the
update (lines 312, 317). -/
def returnedAge (maxFeatureAge_ : Int) (s : LifecycleState) (lid : LandmarkId)
    (previousKeyframeTrackIds : List LandmarkId) : Int :=
  ageOf (update maxFeatureAge_ s lid previousKeyframeTrackIds) lid

/-- The call takes the branch of line 261: `lid` is not a key of `lmkIdToAge`. -/
def firstSighting (s : LifecycleState) (lid : LandmarkId) : Bool :=
  (s.lmkIdToAge lid).isNone

/-- The call takes the branch of line 279: the counter is incremented and
becomes the track identifier. -/
def retires (maxFeatureAge_ : Int) (s : LifecycleState) (lid : LandmarkId)
    (previousKeyframeTrackIds : List LandmarkId) : Bool :=
  decide (ageOf (loopClosureCheck maxFeatureAge_ (noteSighting s lid) lid
    previousKeyframeTrackIds) lid > maxFeatureAge_)

/-- Values assigned to `lmkIdToNewLmkId[lid]` by one call, in program order:
`lid` at line 262 on a first sighting, the counter at line 282 on a retirement. -/
def idsIssuedBy (maxFeatureAge_ : Int) (s : LifecycleState) (lid : LandmarkId)
    (previousKeyframeTrackIds : List LandmarkId) : List LandmarkId :=
  (if firstSighting s lid then [lid] else []) ++
  (if retires maxFeatureAge_ s lid previousKeyframeTrackIds then [s.landmarkCount + 1] else [])

/-- One execution of the lifecycle code: the observed landmark and the track
identifiers of `previousSmartStereoMeasurements` at that moment. -/
structure Call where
  lid : LandmarkId
  previousKeyframeTrackIds : List LandmarkId
  deriving DecidableEq, Repr

/-- State after a sequence of lifecycle updates. -/
def runCalls (maxFeatureAge_ : Int) (s : LifecycleState) : List Call → LifecycleState
  | [] => s
  | c :: cs => runCalls maxFeatureAge_ (update maxFeatureAge_ s c.lid c.previousKeyframeTrackIds) cs

/-- Every value assigned to `lmkIdToNewLmkId` during a sequence of updates. -/
def issuedIds (maxFeatureAge_ : Int) (s : LifecycleState) : List Call → List LandmarkId
  | [] => []
  | c :: cs =>
    idsIssuedBy maxFeatureAge_ s c.lid c.previousKeyframeTrackIds ++
      issuedIds maxFeatureAge_ (update maxFeatureAge_ s c.lid c.previousKeyframeTrackIds) cs


/-- Lifecycle state reached from the state before the first keyframe by a
sequence of updates. -/
def reached (maxFeatureAge_ : Int) (rows : List (LandmarkId × Vector3)) (calls : List Call) :
    LifecycleState :=
  runCalls maxFeatureAge_ (initialState rows) calls

/-- State just before the `n`-th observation of landmark `lid` (counted from
`0`): the updates `others k` of other landmarks run before observation `k`,
and observation `k` of `lid` sees the previous batch `prevs k`. -/
def stateBeforeObservation (maxFeatureAge_ : Int) (lid : LandmarkId)
    (others : Nat → List Call) (prevs : Nat → List LandmarkId) (s0 : LifecycleState) :
    Nat → LifecycleState
  | 0 => runCalls maxFeatureAge_ s0 (others 0)
  | n + 1 =>
    runCalls maxFeatureAge_
      (update maxFeatureAge_ (stateBeforeObservation maxFeatureAge_ lid others prevs s0 n) lid
        (prevs n))
      (others (n + 1))

/-- Stored ages are never negative. -/
def AgesNonneg (s : LifecycleState) : Prop :=
  ∀ l a, s.lmkIdToAge l = some a → 0 ≤ a

/-- Invariant of the lifecycle state when no observed landmark identifier
exceeds `N`, the initial value of the counter: a seen landmark is labelled
either with its own identifier or with a counter value above `N`, and two
seen landmarks never share a label. -/
structure DenseInv (N : Int) (s : LifecycleState) : Prop where
  count_ge : N ≤ s.landmarkCount
  seen_le : ∀ l, s.lmkIdToAge l ≠ none → l ≤ N
  id_range : ∀ l, s.lmkIdToAge l ≠ none →
    s.lmkIdToNewLmkId l = l ∨ (N < s.lmkIdToNewLmkId l ∧ s.lmkIdToNewLmkId l ≤ s.landmarkCount)
  id_inj : ∀ l l', s.lmkIdToAge l ≠ none → s.lmkIdToAge l' ≠ none →
    s.lmkIdToNewLmkId l = s.lmkIdToNewLmkId l' → l = l'

/-- The identifier `x` is out of use: it labels no seen landmark, is at most
the counter, and when it lies in the range of the table's identifiers it
belongs to a landmark already seen. -/
def Retired (N : Int) (x : LandmarkId) (s : LifecycleState) : Prop :=
  (∀ l, s.lmkIdToAge l ≠ none → s.lmkIdToNewLmkId l ≠ x) ∧
  x ≤ s.landmarkCount ∧ (x ≤ N → s.lmkIdToAge x ≠ none)

/-! ## Measurement synthesis (lines 287-309) -/

/-- Squared Euclidean norm of a pixel difference. -/
def squaredNorm (d : Point2) : ℚ :=
  d.1 * d.1 + d.2 * d.2

/-- The test `(expected_px - actual_px).norm() > 1e-2` of line 295, decided on
the squares: a norm exceeds `1/100` exactly when its square exceeds
`(1/100)^2`. -/
def pixelProjectionMismatch (expected_px actual_px : Point2) : Bool :=
  decide (squaredNorm (expected_px.1 - actual_px.1, expected_px.2 - actual_px.2) > (1 / 100) ^ 2)

/-- Lines 287-309 for one observation. `project camLPose K lposition` stands
for `camL.project(lposition)` of the gtsam pinhole camera built from the
ground-truth pose and the calibration; `noiseU` and `noiseV` are the two
samples `pixelNoise(generator)` would return, drawn only when `addNoise`. -/
def synthesize {Pose Cal : Type} (project : Pose → Cal → Vector3 → Point2)
    (camLPose : Pose) (K : Cal) (lposition : Vector3) (actual_px : Point2)
    (addNoise : Bool) (noiseU noiseV : ℚ) : Except SimError StereoPoint2 :=
  if pixelProjectionMismatch (project camLPose K lposition) actual_px then
    Except.error SimError.pixelProjectionMismatch
  else
    Except.ok
      { uL := if addNoise then actual_px.1 + noiseU else actual_px.1
        uR := none
        v := if addNoise then actual_px.2 + noiseV else actual_px.2 }

/-! ## One keyframe of observations (lines 249-319) -/

/-- The four vectors filled by the loop over `fobs_t`. The ages pushed to
`trackerLandmarksAge` are kept as the `int` values read from `lmkIdToAge`. -/
structure KeyframeLists where
  trackedSmartStereoMeasurements : List SmartStereoMeasurement
  newSmartStereoMeasurements : List SmartStereoMeasurement
  trackedkeypoints_3d : List Vector3
  trackerLandmarksAge : List Int
  deriving DecidableEq, Repr

/-- The vectors as declared at lines 249-253, all empty. -/
def KeyframeLists.empty : KeyframeLists :=
  { trackedSmartStereoMeasurements := []
    newSmartStereoMeasurements := []
    trackedkeypoints_3d := []
    trackerLandmarksAge := [] }

/-- One element of `fobs_t` together with the two noise samples the random
engine would deliver for it. -/
structure NoisyObservation where
  fobs : FeatureObservation
  noiseU : ℚ
  noiseV : ℚ
  deriving DecidableEq, Repr

/-- What is fixed during the loop over the observations of one keyframe: the
gtsam operations, the landmark table, the ground-truth left camera, the
front-end parameters, the noise switch and the previous batch. -/
structure KeyframeEnv (Pose Cal : Type) where
  project : Pose → Cal → Vector3 → Point2
  transform_to : Pose → Vector3 → Vector3
  rows : List (LandmarkId × Vector3)
  camLPose : Pose
  K : Cal
  trackerParams : VioFrontEndParams
  addNoise : Bool
  previousSmartStereoMeasurements : List SmartStereoMeasurement

/-- Body of the loop of line 255 for one observation. -/
def processObservation {Pose Cal : Type} (env : KeyframeEnv Pose Cal)
    (st : LifecycleState × KeyframeLists) (o : NoisyObservation) :
    Except SimError (LifecycleState × KeyframeLists) :=
  let lid := o.fobs.lmkId
  let s := update env.trackerParams.maxFeatureAge_ st.1 lid
    (env.previousSmartStereoMeasurements.map Prod.fst)
  let lposition := landmarkPositions env.rows lid
  match synthesize env.project env.camLPose env.K lposition o.fobs.px env.addNoise
      o.noiseU o.noiseV with
  | Except.error e => Except.error e
  | Except.ok stereo_px =>
    if ageOf s lid = 0 then
      Except.ok (s, { st.2 with
        newSmartStereoMeasurements :=
          st.2.newSmartStereoMeasurements ++ [(s.lmkIdToNewLmkId lid, stereo_px)] })
    else
      Except.ok (s, { st.2 with
        trackedSmartStereoMeasurements :=
          st.2.trackedSmartStereoMeasurements ++ [(s.lmkIdToNewLmkId lid, stereo_px)]
        trackedkeypoints_3d :=
          st.2.trackedkeypoints_3d ++ [env.transform_to env.camLPose lposition]
        trackerLandmarksAge := st.2.trackerLandmarksAge ++ [ageOf s lid] })

/-- The loop of lines 255-319 over the observations of one keyframe. -/
def processObservations {Pose Cal : Type} (env : KeyframeEnv Pose Cal)
    (st : LifecycleState × KeyframeLists) :
    List NoisyObservation → Except SimError (LifecycleState × KeyframeLists)
  | [] => Except.ok st
  | o :: os =>
    match processObservation env st o with
    | Except.error e => Except.error e
    | Except.ok st1 => processObservations env st1 os

/-- Track identifiers of all measurements produced for a keyframe. -/
def KeyframeLists.trackIds (l : KeyframeLists) : List LandmarkId :=
  (l.trackedSmartStereoMeasurements ++ l.newSmartStereoMeasurements).map Prod.fst

/-- The lifecycle calls made while the observations `os` are processed. -/
def callsOf (previousSmartStereoMeasurements : List SmartStereoMeasurement)
    (os : List NoisyObservation) : List Call :=
  os.map (fun o => ⟨o.fobs.lmkId, previousSmartStereoMeasurements.map Prod.fst⟩)

/-! ## Feature selection (lines 327-393) -/

/-- Line 327. -/
def need_nr_features (trackerParams : VioFrontEndParams) (trackedkeypoints_3d : List Vector3) :
    Int :=
  max (trackerParams.maxFeaturesPerFrame_ - (trackedkeypoints_3d.length : Int)) 0

/-- The call `v.resize(n)` of `std::vector`: truncation, or padding with
value-initialised elements. -/
def vectorResize (v : List SmartStereoMeasurement) (n : Nat) : List SmartStereoMeasurement :=
  v.take n ++ List.replicate (n - v.length) (0, { uL := 0, uR := some 0, v := 0 })

/-- What the dispatcher hands to `featureSelectionLinearModel` (lines 336-382),
as far as it is computed in the modelled code; `S` is the type of a stamped
pose. Covariance and calibration come from the back end and the dataset. -/
structure SelectorCall (S : Type) where
  corners : List Point2
  successProbabilities : List ℚ
  availableCornerDistances : List ℚ
  need_nr_features : Int
  posesAtFutureKeyframes : List S
  keypoints_3d : List Vector3
  keypointLife : List Int
  criterion : FeatureSelectionCriterion

/-- Lines 386-390: `tmp.at(i)` for every selected index, in order; `at` throws
`std::out_of_range` for an index that is not below `tmp.size()`. -/
def repopulate (tmp : List SmartStereoMeasurement) :
    List Nat → Except SimError (List SmartStereoMeasurement)
  | [] => Except.ok []
  | i :: is =>
    match tmp[i]? with
    | none => Except.error SimError.outOfRange
    | some m =>
      match repopulate tmp is with
      | Except.error e => Except.error e
      | Except.ok ms => Except.ok (m :: ms)

/-- Lines 355-357: remaining life of every tracked point,
`maxFeatureAge_ - age`. -/
def keypointLife (trackerParams : VioFrontEndParams) (trackerLandmarksAge : List Int) :
    List Int :=
  trackerLandmarksAge.map (fun age => trackerParams.maxFeatureAge_ - age)

/-- Arguments of the selector call of lines 377-382: one corner, one success
probability `1.0` and one distance `0.0` per candidate, the required count,
and the selection data assembled at lines 336-363. -/
def selectorCall {S : Type} (trackerParams : VioFrontEndParams)
    (posesAtFutureKeyframes : List S) (trackedkeypoints_3d : List Vector3)
    (trackerLandmarksAge : List Int)
    (newSmartStereoMeasurements : List SmartStereoMeasurement) : SelectorCall S :=
  { corners := newSmartStereoMeasurements.map (fun m => (m.2.uL, m.2.v))
    successProbabilities := newSmartStereoMeasurements.map (fun _ => 1)
    availableCornerDistances := newSmartStereoMeasurements.map (fun _ => 0)
    need_nr_features := need_nr_features trackerParams trackedkeypoints_3d
    posesAtFutureKeyframes := posesAtFutureKeyframes
    keypoints_3d := trackedkeypoints_3d
    keypointLife := keypointLife trackerParams trackerLandmarksAge
    criterion := trackerParams.featureSelectionCriterion_ }

/-- Lines 327-393. `shuffle seed v` stands for `std::shuffle` run with
`std::default_random_engine(seed)`, `seedShuffle` for the value of `rand()`,
and `featureSelectionLinearModel` for the external selector, of whose result
only `selectedIndices` is used afterwards. The comparison of line 328 is
between a `size_t` and an `int` that is never negative, so it is the
comparison of the two numbers. -/
def select {S : Type} (trackerParams : VioFrontEndParams) (didFirstOptimization : Bool)
    (shuffle : Nat → List SmartStereoMeasurement → List SmartStereoMeasurement)
    (seedShuffle : Nat)
    (featureSelectionLinearModel : SelectorCall S → List Nat)
    (posesAtFutureKeyframes : List S)
    (trackedkeypoints_3d : List Vector3) (trackerLandmarksAge : List Int)
    (newSmartStereoMeasurements : List SmartStereoMeasurement) :
    Except SimError (List SmartStereoMeasurement) :=
  if (newSmartStereoMeasurements.length : Int) >
      need_nr_features trackerParams trackedkeypoints_3d then
    if trackerParams.featureSelectionCriterion_ = FeatureSelectionCriterion.QUALITY ∨
        didFirstOptimization = false then
      Except.ok (vectorResize (shuffle seedShuffle newSmartStereoMeasurements)
        (need_nr_features trackerParams trackedkeypoints_3d).toNat)
    else
      if trackedkeypoints_3d.length ≠
          (keypointLife trackerParams trackerLandmarksAge).length then
        Except.error SimError.keypointAgeInconsistent
      else
        repopulate newSmartStereoMeasurements
          (featureSelectionLinearModel
            (selectorCall trackerParams posesAtFutureKeyframes trackedkeypoints_3d
              trackerLandmarksAge newSmartStereoMeasurements))
  else Except.ok newSmartStereoMeasurements

/-! ## The keyframe loop (lines 203-400) -/

/-- What one keyframe hands to the next: the lifecycle variables, the batch
given to the back end (line 400) and the flag set after the back-end update
(line 435). -/
structure RunState where
  lifecycle : LifecycleState
  previousSmartStereoMeasurements : List SmartStereoMeasurement
  didFirstOptimization : Bool

/-- State when the first keyframe with observations is processed: the
iteration `k == initial_k` only initialises the back end and continues. -/
def RunState.initial (rows : List (LandmarkId × Vector3)) : RunState :=
  { lifecycle := initialState rows
    previousSmartStereoMeasurements := []
    didFirstOptimization := false }

/-- What is specific to one keyframe: the ground-truth left camera, the
observations with their noise samples, the value of `rand()`, the selector as
it answers with the back end's current covariance, and the predicted poses. -/
structure KeyframeInput (Pose S : Type) where
  camLPose : Pose
  fobs_t : List NoisyObservation
  seedShuffle : Nat
  featureSelectionLinearModel : SelectorCall S → List Nat
  posesAtFutureKeyframes : List S

/-- What is fixed for the whole run. -/
structure Simulation (Pose Cal : Type) where
  project : Pose → Cal → Vector3 → Point2
  transform_to : Pose → Vector3 → Vector3
  rows : List (LandmarkId × Vector3)
  K : Cal
  trackerParams : VioFrontEndParams
  addNoise : Bool
  shuffle : Nat → List SmartStereoMeasurement → List SmartStereoMeasurement

/-- Environment of the observation loop of one keyframe. -/
def Simulation.env {Pose Cal S : Type} (sim : Simulation Pose Cal) (rs : RunState)
    (kf : KeyframeInput Pose S) : KeyframeEnv Pose Cal :=
  { project := sim.project
    transform_to := sim.transform_to
    rows := sim.rows
    camLPose := kf.camLPose
    K := sim.K
    trackerParams := sim.trackerParams
    addNoise := sim.addNoise
    previousSmartStereoMeasurements := rs.previousSmartStereoMeasurements }

/-- One iteration of the keyframe loop for `k > initial_k`: the observation
loop, the selection, and the batch `tracked ++ selected new` that is handed to
the back end and remembered as `previousSmartStereoMeasurements`
(lines 395-400). Returns also the vectors filled by the observation loop. -/
def processKeyframe {Pose Cal S : Type} (sim : Simulation Pose Cal) (rs : RunState)
    (kf : KeyframeInput Pose S) : Except SimError (RunState × KeyframeLists) :=
  match processObservations (sim.env rs kf) (rs.lifecycle, KeyframeLists.empty) kf.fobs_t with
  | Except.error e => Except.error e
  | Except.ok st =>
    match select sim.trackerParams rs.didFirstOptimization sim.shuffle kf.seedShuffle
        kf.featureSelectionLinearModel kf.posesAtFutureKeyframes st.2.trackedkeypoints_3d
        st.2.trackerLandmarksAge st.2.newSmartStereoMeasurements with
    | Except.error e => Except.error e
    | Except.ok selected =>
      Except.ok
        ({ lifecycle := st.1
           previousSmartStereoMeasurements := st.2.trackedSmartStereoMeasurements ++ selected
           didFirstOptimization := true }, st.2)

/-- The keyframe loop over the keyframes after `initial_k`. -/
def runKeyframes {Pose Cal S : Type} (sim : Simulation Pose Cal) (rs : RunState) :
    List (KeyframeInput Pose S) → Except SimError (RunState × List KeyframeLists)
  | [] => Except.ok (rs, [])
  | kf :: kfs =>
    match processKeyframe sim rs kf with
    | Except.error e => Except.error e
    | Except.ok r =>
      match runKeyframes sim r.1 kfs with
      | Except.error e => Except.error e
      | Except.ok rest => Except.ok (rest.1, r.2 :: rest.2)

/-- The lifecycle calls made by the keyframe loop, in order: the previous
batch of each call is the batch produced by the keyframe before. -/
def callsOfRun {Pose Cal S : Type} (sim : Simulation Pose Cal) (rs : RunState) :
    List (KeyframeInput Pose S) → List Call
  | [] => []
  | kf :: kfs =>
    callsOf rs.previousSmartStereoMeasurements kf.fobs_t ++
      (match processKeyframe sim rs kf with
       | Except.error _ => []
       | Except.ok r => callsOfRun sim r.1 kfs)

/-! ## Predicted poses of the selection context (lines 197, 337-348, 438) -/

/-- The C function `round` on a `double`: the nearest integer, halves away
from zero. -/
def cRound (x : ℚ) : Int :=
  if 0 ≤ x then ⌊x + 1 / 2⌋ else -⌊-x + 1 / 2⌋

/-- Nearest integer, a half going to the even neighbour: the rounding that
IEEE-754 applies to a significand. -/
def roundHalfEven (m : ℚ) : Int :=
  if m - ⌊m⌋ < 1 / 2 then ⌊m⌋
  else if 1 / 2 < m - ⌊m⌋ then ⌊m⌋ + 1
  else if ⌊m⌋ % 2 = 0 then ⌊m⌋ else ⌊m⌋ + 1

/-- The IEEE-754 binary64 (`double`) value nearest to `x`, ties to even, the
rounding of every `double` operation and decimal literal of the source: a
significand of 53 bits at the binary exponent of `x`, or at the exponent
`-1022` below `2 ^ (-1022)` (subnormal values). The overflow to infinity, which
needs a magnitude of `2 ^ 1024 - 2 ^ 970` or more, is not modelled. -/
def toDouble (x : ℚ) : ℚ :=
  if x = 0 then 0
  else
    (roundHalfEven (x / 2 ^ (max (Int.log 2 |x|) (-1022) - 52)) : ℚ) *
      2 ^ (max (Int.log 2 |x|) (-1022) - 52)

/-- Line 338: `size_t nrKfInHorizon = round(featureSelectionHorizon_ /
intra_keyframe_time_)`: the quotient of the two `double` parameters is a
`double`, which `round` takes to the nearest integer. The conversion of the
rounded value to `size_t` is the identity on the non-negative values; C++
leaves it undefined on negative ones, where `Int.toNat` is used here, and the
division by a zero interval, an infinity or NaN in the source, is `0` here. -/
def nrKfInHorizon (featureSelectionHorizon_ intra_keyframe_time_ : ℚ) : Nat :=
  (cRound (toDouble
    (toDouble featureSelectionHorizon_ / toDouble intra_keyframe_time_))).toNat

/-- The struct `StampedPose`: a pose and its time in seconds. -/
structure StampedPose (P : Type) where
  pose : P
  timestampInSec : ℚ

/-- Line 345: `timestamp_kk = timestamp_k + SecToNsec(kk * intra_keyframe_time_)`,
with `SecToNsec` of `UtilsOpenCV` as a parameter. The product is a `double`;
the conversion of the `size_t` index `kk` to `double` is exact below `2 ^ 53`. -/
def timestamp_kk (SecToNsec : ℚ → Int) (intra_keyframe_time_ : ℚ) (timestamp_k : Int)
    (kk : Nat) : Int :=
  timestamp_k + SecToNsec (toDouble ((kk : ℚ) * toDouble intra_keyframe_time_))

/-- Lines 344-348: the loop `for kk = 0 .. nrKfInHorizon` that fills
`posesAtFutureKeyframes`. Poses are elements of a group `P`: `a.between(b)` is
`a⁻¹ * b` and `a.compose(b)` is `a * b`. `getGroundTruthPose t` stands for
`dataset.getGroundTruthState(t).pose`, `W_Pose_Blkf` for the back end's
`W_Pose_Blkf_`, and `SecToNsec`, `NsecToSec` for the conversions of
`UtilsOpenCV`. -/
def posesAtFutureKeyframes {P : Type} [Group P] (SecToNsec : ℚ → Int) (NsecToSec : Int → ℚ)
    (featureSelectionHorizon_ intra_keyframe_time_ : ℚ) (timestamp_k : Int)
    (getGroundTruthPose : Int → P) (W_Pose_Blkf W_Pose_Bkf_gt : P) : List (StampedPose P) :=
  (List.range (nrKfInHorizon featureSelectionHorizon_ intra_keyframe_time_ + 1)).map
    (fun kk =>
      { pose := W_Pose_Blkf * (W_Pose_Bkf_gt⁻¹ *
          getGroundTruthPose (timestamp_kk SecToNsec intra_keyframe_time_ timestamp_k kk))
        timestampInSec :=
          NsecToSec (timestamp_kk SecToNsec intra_keyframe_time_ timestamp_k kk) })

/-- Value of the variable `W_Pose_Bkf_gt` while a keyframe is processed, given
the timestamps of the keyframes after `initial_k` processed before it: the
default-constructed identity pose (line 197) when there is none, otherwise the
ground-truth pose at the timestamp of the last one (line 438). -/
def W_Pose_Bkf_gt {P : Type} [Group P] (getGroundTruthPose : Int → P)
    (processedTimestamps : List Int) : P :=
  match processedTimestamps.getLast? with
  | none => 1
  | some t => getGroundTruthPose t

/-! ## Concrete scenarios used in the examples -/

/-- Pinhole projection of a camera placed at the world origin with identity
rotation and unit calibration: perspective division by the depth. -/
def identityCameraProject (_camLPose : Unit) (_K : Unit) (p : Vector3) : Point2 :=
  (p.1 / p.2.2, p.2.1 / p.2.2)

/-- A table numbered `0, 1`: two landmarks on the optical axis of the example
camera, at depths `1` and `2`. -/
def denseRows : List (LandmarkId × Vector3) := [(0, (0, 0, 1)), (1, (0, 0, 2))]

/-- A table whose identifiers `3, 5` exceed its size `2`: two landmarks on the
optical axis of the example camera, at depths `1` and `2`. -/
def sparseRows : List (LandmarkId × Vector3) := [(3, (0, 0, 1)), (5, (0, 0, 2))]

/-- A table whose identifier `3` exceeds its size `2` while `0` does not: two
landmarks on the optical axis of the example camera, at depths `1` and `2`. -/
def gapRows : List (LandmarkId × Vector3) := [(0, (0, 0, 1)), (3, (0, 0, 2))]

/-- Keyframe environment with the camera at the origin, noise switched off. -/
def exampleEnv (rows : List (LandmarkId × Vector3)) (maxFeatureAge_ : Int)
    (previousSmartStereoMeasurements : List SmartStereoMeasurement) : KeyframeEnv Unit Unit :=
  { project := identityCameraProject
    transform_to := fun _ p => p
    rows := rows
    camLPose := ()
    K := ()
    trackerParams :=
      { maxFeatureAge_ := maxFeatureAge_
        maxFeaturesPerFrame_ := 20
        featureSelectionCriterion_ := FeatureSelectionCriterion.QUALITY }
    addNoise := false
    previousSmartStereoMeasurements := previousSmartStereoMeasurements }

/-- Observation of landmark `lid` at the pixel `(0, 0)`. -/
def obsAt (lid : LandmarkId) : NoisyObservation :=
  { fobs := { lmkId := lid, px := (0, 0), sigma := 1 }, noiseU := 0, noiseV := 0 }

/-- Measurement of track `id` at the pixel `(0, 0)`. -/
def measAt (id : LandmarkId) : SmartStereoMeasurement :=
  (id, { uL := 0, uR := none, v := 0 })

/-- A run with the camera at the origin, noise switched off and the identity
as shuffle. -/
def exampleSimulation (rows : List (LandmarkId × Vector3)) (maxFeatureAge_ : Int) :
    Simulation Unit Unit :=
  { project := identityCameraProject
    transform_to := fun _ p => p
    rows := rows
    K := ()
    trackerParams :=
      { maxFeatureAge_ := maxFeatureAge_
        maxFeaturesPerFrame_ := 20
        featureSelectionCriterion_ := FeatureSelectionCriterion.QUALITY }
    addNoise := false
    shuffle := fun _ l => l }

/-- A keyframe in which the landmarks `lids` are observed at the pixel `(0, 0)`. -/
def exampleKeyframe (lids : List LandmarkId) : KeyframeInput Unit Unit :=
  { camLPose := ()
    fobs_t := lids.map obsAt
    seedShuffle := 0
    featureSelectionLinearModel := fun _ => []
    posesAtFutureKeyframes := [] }

/-- Previous batches seen by four consecutive observations of landmark `0`
with `maxFeatureAge_ = 1`: empty at the first keyframe, then the batch that
holds the landmark's current track. -/
def examplePrevs (k : Nat) : List LandmarkId :=
  ([[], [0], [0], [3]] : List (List LandmarkId)).getD k []

/-- Previous batches seen by consecutive observations of landmark `3` of the
table `gapRows` when no other landmark is observed: empty at the first
keyframe, then the batch `[3]` that holds the landmark's current track. -/
def gapPrevs (k : Nat) : List LandmarkId :=
  if k = 0 then [] else [3]

/-- Ground-truth poses of the example run, in the group of the six rigid
motions that map an equilateral triangle to itself (the permutations of its
corners): the pose depends on the parity of the timestamp. -/
def exampleGroundTruth (t : Int) : Equiv.Perm (Fin 3) :=
  if t % 2 = 0 then Equiv.swap 0 1 else Equiv.swap 1 2

/-- Conversion of seconds to whole nanoseconds, for the non-negative times of
the examples. -/
def exampleSecToNsec (s : ℚ) : Int :=
  ⌊s * 1000000000⌋

/-- Conversion of nanoseconds to seconds. -/
def exampleNsecToSec (n : Int) : ℚ :=
  (n : ℚ) / 1000000000

theorem mapSet_same {β : Type} (m : LandmarkId → β) (k : LandmarkId) (v : β) :
    mapSet m k v k = v := by
  simp [mapSet]

theorem mapSet_other {β : Type} (m : LandmarkId → β) (k j : LandmarkId) (v : β) (h : j ≠ k) :
    mapSet m k v j = m j := by
  simp [mapSet, h]

/-- An update leaves the entries of every other landmark alone. -/
theorem update_other (M : Int) (s : LifecycleState) (lid l : LandmarkId)
    (p : List LandmarkId) (h : l ≠ lid) :
    (update M s lid p).lmkIdToAge l = s.lmkIdToAge l ∧
    (update M s lid p).lmkIdToNewLmkId l = s.lmkIdToNewLmkId l := by
  unfold update retireIfTooOld loopClosureCheck noteSighting
  cases hs : s.lmkIdToAge lid <;> (split_ifs <;> simp [mapSet, h])

theorem noteSighting_landmarkCount (s : LifecycleState) (lid : LandmarkId) :
    (noteSighting s lid).landmarkCount = s.landmarkCount := by
  unfold noteSighting
  split <;> rfl

theorem loopClosureCheck_landmarkCount (M : Int) (s : LifecycleState) (lid : LandmarkId)
    (p : List LandmarkId) :
    (loopClosureCheck M s lid p).landmarkCount = s.landmarkCount := by
  unfold loopClosureCheck
  split_ifs <;> rfl

/-- Lines 261-277 never touch the counter. -/
theorem precheck_landmarkCount (M : Int) (s : LifecycleState) (lid : LandmarkId)
    (p : List LandmarkId) :
    (loopClosureCheck M (noteSighting s lid) lid p).landmarkCount = s.landmarkCount := by
  rw [loopClosureCheck_landmarkCount, noteSighting_landmarkCount]

/-- A retiring call stores age `0`, labels the landmark with the incremented
counter and increments the counter. -/
theorem update_of_retires (M : Int) (s : LifecycleState) (lid : LandmarkId)
    (p : List LandmarkId) (h : retires M s lid p = true) :
    (update M s lid p).lmkIdToAge lid = some 0 ∧
    (update M s lid p).lmkIdToNewLmkId lid = s.landmarkCount + 1 ∧
    (update M s lid p).landmarkCount = s.landmarkCount + 1 := by
  unfold retires at h
  have h2 := of_decide_eq_true h
  unfold update retireIfTooOld
  rw [if_pos h2]
  refine ⟨by simp [mapSet], by simp [mapSet, precheck_landmarkCount], ?_⟩
  show (loopClosureCheck M (noteSighting s lid) lid p).landmarkCount + 1 = _
  rw [precheck_landmarkCount]

/-- A call that does not retire leaves the counter alone. -/
theorem update_count_of_not_retires (M : Int) (s : LifecycleState) (lid : LandmarkId)
    (p : List LandmarkId) (h : retires M s lid p = false) :
    (update M s lid p).landmarkCount = s.landmarkCount := by
  unfold retires at h
  have h2 := of_decide_eq_false h
  unfold update retireIfTooOld
  rw [if_neg h2]
  exact precheck_landmarkCount M s lid p

/-- A first sighting that does not retire stores age `0` under the landmark's
own identifier. -/
theorem update_of_first_not_retires (M : Int) (s : LifecycleState) (lid : LandmarkId)
    (p : List LandmarkId) (hf : s.lmkIdToAge lid = none) (h : retires M s lid p = false) :
    (update M s lid p).lmkIdToAge lid = some 0 ∧
    (update M s lid p).lmkIdToNewLmkId lid = lid := by
  unfold retires at h
  have h2 := of_decide_eq_false h
  unfold update retireIfTooOld
  rw [if_neg h2]
  unfold loopClosureCheck noteSighting
  simp [hf, ageOf, mapSet]

/-- Retirement of a landmark that was seen before, spelled out. -/
theorem retires_of_seen (M : Int) (s : LifecycleState) (lid : LandmarkId)
    (p : List LandmarkId) (a : Int) (hs : s.lmkIdToAge lid = some a) :
    retires M s lid p = true ↔
      (0 < a + 1 ∧ s.lmkIdToNewLmkId lid ∉ p) ∨ M < a + 1 := by
  unfold retires loopClosureCheck noteSighting seenInPreviosKeyframe
  simp only [hs, decide_eq_true_eq]
  by_cases h1 : 0 < a + 1
  · by_cases h2 : s.lmkIdToNewLmkId lid ∈ p
    · simp [ageOf, mapSet, h1, h2]
    · simp [ageOf, mapSet, h1, h2]
  · simp [ageOf, mapSet, h1]

/-- Retirement on a first sighting happens exactly for a negative threshold. -/
theorem retires_of_first (M : Int) (s : LifecycleState) (lid : LandmarkId)
    (p : List LandmarkId) (hs : s.lmkIdToAge lid = none) :
    retires M s lid p = true ↔ M < 0 := by
  unfold retires loopClosureCheck noteSighting
  simp [hs, ageOf, mapSet]

/-- A seen landmark that does not retire gets one more frame of age and keeps
its track identifier. -/
theorem update_of_seen_not_retires (M : Int) (s : LifecycleState) (lid : LandmarkId)
    (p : List LandmarkId) (a : Int) (hs : s.lmkIdToAge lid = some a)
    (h : retires M s lid p = false) :
    (update M s lid p).lmkIdToAge lid = some (a + 1) ∧
    (update M s lid p).lmkIdToNewLmkId lid = s.lmkIdToNewLmkId lid := by
  have hr : ¬ ((0 < a + 1 ∧ s.lmkIdToNewLmkId lid ∉ p) ∨ M < a + 1) := by
    rw [← retires_of_seen M s lid p a hs]; simp [h]
  push_neg at hr
  unfold retires at h
  have h2 := of_decide_eq_false h
  unfold update retireIfTooOld
  rw [if_neg h2]
  unfold loopClosureCheck noteSighting seenInPreviosKeyframe
  simp only [hs]
  by_cases h1 : 0 < a + 1
  · have := hr.1 h1
    simp [ageOf, mapSet, h1, this]
  · simp [ageOf, mapSet, h1]

/-- How one update changes the entry of the observed landmark and the counter. -/
theorem update_lid_cases (M : Int) (s : LifecycleState) (lid : LandmarkId)
    (p : List LandmarkId) :
    (update M s lid p).lmkIdToAge lid ≠ none ∧
    ((retires M s lid p = true ∧
        (update M s lid p).lmkIdToNewLmkId lid = s.landmarkCount + 1 ∧
        (update M s lid p).landmarkCount = s.landmarkCount + 1) ∨
     (retires M s lid p = false ∧ (update M s lid p).landmarkCount = s.landmarkCount ∧
        ((s.lmkIdToAge lid = none ∧ (update M s lid p).lmkIdToNewLmkId lid = lid) ∨
         (s.lmkIdToAge lid ≠ none ∧
            (update M s lid p).lmkIdToNewLmkId lid = s.lmkIdToNewLmkId lid)))) := by
  cases hr : retires M s lid p
  · have hc := update_count_of_not_retires M s lid p hr
    cases hs : s.lmkIdToAge lid with
    | none =>
      have h := update_of_first_not_retires M s lid p hs hr
      exact ⟨by simp [h.1], Or.inr ⟨rfl, hc, Or.inl ⟨rfl, h.2⟩⟩⟩
    | some a =>
      have h := update_of_seen_not_retires M s lid p a hs hr
      exact ⟨by simp [h.1], Or.inr ⟨rfl, hc, Or.inr ⟨by simp, h.2⟩⟩⟩
  · have h := update_of_retires M s lid p hr
    exact ⟨by simp [h.1], Or.inl ⟨rfl, h.2.1, h.2.2⟩⟩

/-- The counter never decreases. -/
theorem update_landmarkCount_mono (M : Int) (s : LifecycleState) (lid : LandmarkId)
    (p : List LandmarkId) : s.landmarkCount ≤ (update M s lid p).landmarkCount := by
  rcases (update_lid_cases M s lid p).2 with h | h
  · rw [h.2.2]; linarith
  · rw [h.2.1]

theorem runCalls_landmarkCount_mono (M : Int) (calls : List Call) :
    ∀ s : LifecycleState, s.landmarkCount ≤ (runCalls M s calls).landmarkCount := by
  induction calls with
  | nil => intro s; exact le_refl _
  | cons c cs ih =>
    intro s
    exact le_trans (update_landmarkCount_mono M s c.lid c.previousKeyframeTrackIds) (ih _)

theorem initialState_agesNonneg (rows : List (LandmarkId × Vector3)) :
    AgesNonneg (initialState rows) := by
  intro l a h
  simp [initialState] at h

theorem update_agesNonneg (M : Int) (s : LifecycleState) (lid : LandmarkId)
    (p : List LandmarkId) (h : AgesNonneg s) : AgesNonneg (update M s lid p) := by
  intro l a hl
  by_cases hne : l = lid
  · subst hne
    cases hr : retires M s l p
    · cases hs : s.lmkIdToAge l with
      | none =>
        rw [(update_of_first_not_retires M s l p hs hr).1] at hl
        cases hl; exact le_refl _
      | some b =>
        rw [(update_of_seen_not_retires M s l p b hs hr).1] at hl
        cases hl
        have := h l b hs
        linarith
    · rw [(update_of_retires M s l p hr).1] at hl
      cases hl; exact le_refl _
  · rw [(update_other M s lid l p hne).1] at hl
    exact h l a hl

theorem runCalls_agesNonneg (M : Int) (calls : List Call) :
    ∀ s : LifecycleState, AgesNonneg s → AgesNonneg (runCalls M s calls) := by
  induction calls with
  | nil => intro s h; exact h
  | cons c cs ih => intro s h; exact ih _ (update_agesNonneg M s _ _ h)

theorem initialState_denseInv (rows : List (LandmarkId × Vector3)) :
    DenseInv (initialState rows).landmarkCount (initialState rows) where
  count_ge := le_refl _
  seen_le := by intro l h; simp [initialState] at h
  id_range := by intro l h; simp [initialState] at h
  id_inj := by intro l l' h; simp [initialState] at h

/-- Labels of seen landmarks never exceed the counter. -/
theorem DenseInv.id_le {N : Int} {s : LifecycleState} (h : DenseInv N s) (l : LandmarkId)
    (hl : s.lmkIdToAge l ≠ none) : s.lmkIdToNewLmkId l ≤ s.landmarkCount := by
  rcases h.id_range l hl with h1 | h1
  · rw [h1]; exact le_trans (h.seen_le l hl) h.count_ge
  · exact h1.2

theorem update_denseInv (M N : Int) (s : LifecycleState) (lid : LandmarkId)
    (p : List LandmarkId) (h : DenseInv N s) (hlid : lid ≤ N) :
    DenseInv N (update M s lid p) := by
  have hc := update_lid_cases M s lid p
  have hmono := update_landmarkCount_mono M s lid p
  have hseen : ∀ l, l ≠ lid → (update M s lid p).lmkIdToAge l ≠ none → s.lmkIdToAge l ≠ none := by
    intro l hne hl
    rwa [(update_other M s lid l p hne).1] at hl
  -- the label of the observed landmark after the call
  have hlidrange : (update M s lid p).lmkIdToNewLmkId lid = lid ∨
      (N < (update M s lid p).lmkIdToNewLmkId lid ∧
        (update M s lid p).lmkIdToNewLmkId lid ≤ (update M s lid p).landmarkCount) := by
    rcases hc.2 with ⟨_, h1, h2⟩ | ⟨_, h1, h2 | h2⟩
    · right; rw [h1, h2]; exact ⟨by have := h.count_ge; linarith, le_refl _⟩
    · left; exact h2.2
    · rw [h2.2, h1]; exact h.id_range lid h2.1
  refine ⟨le_trans h.count_ge hmono, ?_, ?_, ?_⟩
  · intro l hl
    by_cases hne : l = lid
    · rw [hne]; exact hlid
    · exact h.seen_le l (hseen l hne hl)
  · intro l hl
    by_cases hne : l = lid
    · rw [hne]; exact hlidrange
    · rw [(update_other M s lid l p hne).2]
      rcases h.id_range l (hseen l hne hl) with h1 | h1
      · exact Or.inl h1
      · exact Or.inr ⟨h1.1, le_trans h1.2 hmono⟩
  · -- a label issued to `lid` differs from the label of every other seen landmark
    have key : ∀ l, l ≠ lid → s.lmkIdToAge l ≠ none →
        (update M s lid p).lmkIdToNewLmkId lid ≠ s.lmkIdToNewLmkId l := by
      intro l hne hl heq
      have hle := h.id_le l hl
      rcases hc.2 with ⟨_, h1, _⟩ | ⟨_, _, h2 | h2⟩
      · rw [h1] at heq; linarith
      · rw [h2.2] at heq
        rcases h.id_range l hl with h3 | h3
        · exact hne (by rw [← h3, ← heq])
        · linarith
      · rw [h2.2] at heq
        exact hne (h.id_inj lid l h2.1 hl heq).symm
    intro l l' hl hl' heq
    by_cases hne : l = lid
    · by_cases hne' : l' = lid
      · rw [hne, hne']
      · exfalso
        rw [hne, (update_other M s lid l' p hne').2] at heq
        exact key l' hne' (hseen l' hne' hl') heq
    · by_cases hne' : l' = lid
      · exfalso
        rw [hne', (update_other M s lid l p hne).2] at heq
        exact key l hne (hseen l hne hl) heq.symm
      · rw [(update_other M s lid l p hne).2, (update_other M s lid l' p hne').2] at heq
        exact h.id_inj l l' (hseen l hne hl) (hseen l' hne' hl') heq

theorem runCalls_denseInv (M N : Int) (calls : List Call) :
    ∀ s : LifecycleState, DenseInv N s → (∀ c ∈ calls, c.lid ≤ N) →
      DenseInv N (runCalls M s calls) := by
  induction calls with
  | nil => intro s h _; exact h
  | cons c cs ih =>
    intro s h hc
    exact ih _ (update_denseInv M N s c.lid c.previousKeyframeTrackIds h
      (hc c (List.mem_cons_self _ _))) (fun d hd => hc d (List.mem_cons_of_mem _ hd))

/-- Every identifier issued so far is at most the counter. -/
theorem issuedIds_le (M N : Int) (calls : List Call) :
    ∀ s : LifecycleState, N ≤ s.landmarkCount → (∀ c ∈ calls, c.lid ≤ N) →
      ∀ x ∈ issuedIds M s calls, x ≤ (runCalls M s calls).landmarkCount := by
  induction calls with
  | nil => intro s _ _ x hx; simp [issuedIds] at hx
  | cons c cs ih =>
    intro s hN hc x hx
    have hmono := update_landmarkCount_mono M s c.lid c.previousKeyframeTrackIds
    have hrest := runCalls_landmarkCount_mono M cs
      (update M s c.lid c.previousKeyframeTrackIds)
    simp only [issuedIds, List.mem_append] at hx
    show x ≤ (runCalls M (update M s c.lid c.previousKeyframeTrackIds) cs).landmarkCount
    rcases hx with hx | hx
    · unfold idsIssuedBy at hx
      rw [List.mem_append] at hx
      rcases hx with hx | hx
      · split_ifs at hx
        · simp at hx
          have := hc c (List.mem_cons_self _ _)
          linarith
        · simp at hx
      · split_ifs at hx with hr
        · simp at hx
          have := (update_of_retires M s c.lid c.previousKeyframeTrackIds hr).2.2
          linarith
        · simp at hx
    · exact ih _ (le_trans hN hmono) (fun d hd => hc d (List.mem_cons_of_mem _ hd)) x hx

theorem reached_agesNonneg (M : Int) (rows : List (LandmarkId × Vector3)) (calls : List Call) :
    AgesNonneg (reached M rows calls) :=
  runCalls_agesNonneg M calls _ (initialState_agesNonneg rows)

/-- Updates of other landmarks leave the entries of `lid` alone. -/
theorem runCalls_other (M : Int) (lid : LandmarkId) (calls : List Call) :
    ∀ s : LifecycleState, (∀ c ∈ calls, c.lid ≠ lid) →
      (runCalls M s calls).lmkIdToAge lid = s.lmkIdToAge lid ∧
      (runCalls M s calls).lmkIdToNewLmkId lid = s.lmkIdToNewLmkId lid := by
  induction calls with
  | nil => intro s _; exact ⟨rfl, rfl⟩
  | cons c cs ih =>
    intro s hc
    have h1 := ih (update M s c.lid c.previousKeyframeTrackIds)
      (fun d hd => hc d (List.mem_cons_of_mem _ hd))
    have h2 := update_other M s c.lid lid c.previousKeyframeTrackIds
      (fun h => hc c (List.mem_cons_self _ _) h.symm)
    exact ⟨h1.1.trans h2.1, h1.2.trans h2.2⟩

/-- Successor step of a remainder. -/
theorem succ_emod_cases (n m : Int) (hm : 0 < m) :
    (n % m + 1 = m ∧ (n + 1) % m = 0) ∨ (n % m + 1 < m ∧ (n + 1) % m = n % m + 1) := by
  have h0 := Int.emod_nonneg n (ne_of_gt hm)
  have h1 := Int.emod_lt_of_pos n hm
  have h2 : (n + 1) % m = (n % m + 1) % m := (Int.emod_add_emod n m 1).symm
  by_cases h : n % m + 1 = m
  · left
    refine ⟨h, ?_⟩
    rw [h2, h, Int.emod_self]
  · right
    have h3 : n % m + 1 < m := by omega
    refine ⟨h3, ?_⟩
    rw [h2, Int.emod_eq_of_lt (by omega) h3]

/-- Entry of a continuously observed landmark after its `n`-th observation. -/
theorem continuous_observation_step (M : Int) (hM : 0 ≤ M) (lid : LandmarkId)
    (others : Nat → List Call) (prevs : Nat → List LandmarkId) (s0 : LifecycleState)
    (hfirst : s0.lmkIdToAge lid = none)
    (hothers : ∀ k, ∀ c ∈ others k, c.lid ≠ lid) :
    ∀ n : Nat,
      (∀ k, 1 ≤ k → k ≤ n →
        (stateBeforeObservation M lid others prevs s0 k).lmkIdToNewLmkId lid ∈ prevs k) →
      (update M (stateBeforeObservation M lid others prevs s0 n) lid (prevs n)).lmkIdToAge lid
          = some ((n : Int) % (M + 1)) ∧
      (retires M (stateBeforeObservation M lid others prevs s0 n) lid (prevs n) = true ↔
        0 < n ∧ (M + 1) ∣ (n : Int)) := by
  intro n
  induction n with
  | zero =>
    intro _
    have hs : (stateBeforeObservation M lid others prevs s0 0).lmkIdToAge lid = none := by
      show (runCalls M s0 (others 0)).lmkIdToAge lid = none
      rw [(runCalls_other M lid (others 0) s0 (hothers 0)).1, hfirst]
    have hr : retires M (stateBeforeObservation M lid others prevs s0 0) lid (prevs 0) = false := by
      cases h : retires M (stateBeforeObservation M lid others prevs s0 0) lid (prevs 0)
      · rfl
      · have := (retires_of_first M _ lid (prevs 0) hs).1 h
        omega
    refine ⟨?_, ?_⟩
    · rw [(update_of_first_not_retires M _ lid (prevs 0) hs hr).1]
      simp
    · simp [hr]
  | succ n ih =>
    intro hcont
    have ihn := ih (fun k h1 h2 => hcont k h1 (Nat.le_succ_of_le h2))
    have hs : (stateBeforeObservation M lid others prevs s0 (n + 1)).lmkIdToAge lid
        = some ((n : Int) % (M + 1)) := by
      show (runCalls M _ (others (n + 1))).lmkIdToAge lid = _
      rw [(runCalls_other M lid (others (n + 1)) _ (hothers (n + 1))).1]
      exact ihn.1
    have hin := hcont (n + 1) (Nat.succ_le_succ (Nat.zero_le n)) (le_refl _)
    have hret := retires_of_seen M (stateBeforeObservation M lid others prevs s0 (n + 1)) lid
      (prevs (n + 1)) _ hs
    have hmod := succ_emod_cases (n : Int) (M + 1) (by omega)
    have hcast : ((n + 1 : Nat) : Int) = (n : Int) + 1 := by push_cast; rfl
    have hdvd : (M + 1) ∣ ((n + 1 : Nat) : Int) ↔ ((n : Int) + 1) % (M + 1) = 0 := by
      rw [hcast]; exact Int.dvd_iff_emod_eq_zero
    rcases hmod with ⟨h1, h2⟩ | ⟨h1, h2⟩
    · have hr : retires M (stateBeforeObservation M lid others prevs s0 (n + 1)) lid
          (prevs (n + 1)) = true := hret.2 (Or.inr (by omega))
      refine ⟨?_, ?_⟩
      · rw [(update_of_retires M _ lid (prevs (n + 1)) hr).1, hcast, h2]
      · simp only [hr, true_iff]
        exact ⟨Nat.succ_pos n, hdvd.2 h2⟩
    · have hr : retires M (stateBeforeObservation M lid others prevs s0 (n + 1)) lid
          (prevs (n + 1)) = false := by
        cases h : retires M (stateBeforeObservation M lid others prevs s0 (n + 1)) lid
          (prevs (n + 1))
        · rfl
        · rcases hret.1 h with h3 | h3
          · exact absurd hin h3.2
          · omega
      refine ⟨?_, ?_⟩
      · rw [(update_of_seen_not_retires M _ lid (prevs (n + 1)) _ hs hr).1, hcast, h2]
      · constructor
        · intro hft; rw [hr] at hft; cases hft
        · rintro ⟨_, hd⟩
          exfalso
          have := hdvd.1 hd
          have h0 := Int.emod_nonneg (n : Int) (show M + 1 ≠ 0 by omega)
          omega


/-! ## Lemmas on the loop over the observations of a keyframe -/

/-- A landmark that has an age keeps having one. -/
theorem update_seen_mono (M : Int) (s : LifecycleState) (lid l : LandmarkId)
    (p : List LandmarkId) (h : s.lmkIdToAge l ≠ none) :
    (update M s lid p).lmkIdToAge l ≠ none := by
  by_cases hne : l = lid
  · rw [hne]; exact (update_lid_cases M s lid p).1
  · rwa [(update_other M s lid l p hne).1]

theorem runCalls_seen_mono (M : Int) (l : LandmarkId) (calls : List Call) :
    ∀ s : LifecycleState, s.lmkIdToAge l ≠ none → (runCalls M s calls).lmkIdToAge l ≠ none := by
  induction calls with
  | nil => intro s h; exact h
  | cons c cs ih => intro s h; exact ih _ (update_seen_mono M s _ l _ h)

/-- Every landmark named in a call has an age afterwards. -/
theorem runCalls_seen (M : Int) (calls : List Call) :
    ∀ s : LifecycleState, ∀ c ∈ calls, (runCalls M s calls).lmkIdToAge c.lid ≠ none := by
  induction calls with
  | nil => intro s c hc; cases hc
  | cons d ds ih =>
    intro s c hc
    rcases List.mem_cons.1 hc with h | h
    · subst h
      exact runCalls_seen_mono M c.lid ds _ (update_lid_cases M s c.lid _).1
    · exact ih _ c h

theorem runCalls_append (M : Int) (cs ds : List Call) :
    ∀ s : LifecycleState, runCalls M s (cs ++ ds) = runCalls M (runCalls M s cs) ds := by
  induction cs with
  | nil => intro s; rfl
  | cons c cs ih => intro s; exact ih _

/-- One pass through the loop body performs one lifecycle update and appends
one measurement, labelled with the updated track identifier, to one of the two
measurement vectors. -/
theorem processObservation_ok {Pose Cal : Type} (env : KeyframeEnv Pose Cal)
    (s s1 : LifecycleState) (acc acc1 : KeyframeLists) (o : NoisyObservation)
    (h : processObservation env (s, acc) o = Except.ok (s1, acc1)) :
    s1 = update env.trackerParams.maxFeatureAge_ s o.fobs.lmkId
      (env.previousSmartStereoMeasurements.map Prod.fst) ∧
    acc1.trackIds.Perm (s1.lmkIdToNewLmkId o.fobs.lmkId :: acc.trackIds) := by
  unfold processObservation at h
  simp only at h
  split at h
  · cases h
  · split_ifs at h
    · simp only [Except.ok.injEq, Prod.mk.injEq] at h
      obtain ⟨h1, h2⟩ := h
      subst h1 h2
      refine ⟨rfl, ?_⟩
      simp only [KeyframeLists.trackIds, List.map_append, List.map_cons, List.map_nil]
      rw [← List.append_assoc]
      exact List.perm_append_singleton _ _
    · simp only [Except.ok.injEq, Prod.mk.injEq] at h
      obtain ⟨h1, h2⟩ := h
      subst h1 h2
      refine ⟨rfl, ?_⟩
      simp only [KeyframeLists.trackIds, List.map_append, List.map_cons, List.map_nil]
      rw [List.append_assoc]
      exact List.perm_middle

/-- The loop over the observations of a keyframe performs the lifecycle
updates `callsOf`, and when no landmark is observed twice the identifiers of
the measurements it produces are the final track identifiers of the observed
landmarks. -/
theorem processObservations_ok {Pose Cal : Type} (env : KeyframeEnv Pose Cal)
    (os : List NoisyObservation) :
    ∀ (s s1 : LifecycleState) (acc lists : KeyframeLists) (done : List LandmarkId),
      processObservations env (s, acc) os = Except.ok (s1, lists) →
      (os.map (fun o => o.fobs.lmkId)).Nodup →
      (∀ o ∈ os, o.fobs.lmkId ∉ done) →
      acc.trackIds.Perm (done.map s.lmkIdToNewLmkId) →
      s1 = runCalls env.trackerParams.maxFeatureAge_ s
        (callsOf env.previousSmartStereoMeasurements os) ∧
      lists.trackIds.Perm
        ((done ++ os.map (fun o => o.fobs.lmkId)).map s1.lmkIdToNewLmkId) := by
  induction os with
  | nil =>
    intro s s1 acc lists done h _ _ hacc
    simp only [processObservations, Except.ok.injEq, Prod.mk.injEq] at h
    obtain ⟨h1, h2⟩ := h
    subst h1 h2
    exact ⟨rfl, by simpa using hacc⟩
  | cons o os ih =>
    intro s s1 acc lists done h hnd hdone hacc
    simp only [processObservations] at h
    split at h
    · cases h
    · rename_i st1 hstep
      obtain ⟨s2, acc2⟩ := st1
      have hA := processObservation_ok env s s2 acc acc2 o hstep
      rw [List.map_cons, List.nodup_cons] at hnd
      have hacc2 : acc2.trackIds.Perm ((o.fobs.lmkId :: done).map s2.lmkIdToNewLmkId) := by
        refine hA.2.trans ?_
        rw [List.map_cons]
        refine List.Perm.cons _ (hacc.trans ?_)
        have : done.map s.lmkIdToNewLmkId = done.map s2.lmkIdToNewLmkId := by
          apply List.map_congr_left
          intro d hd
          have hne : d ≠ o.fobs.lmkId := by
            intro he
            exact hdone o (List.mem_cons_self _ _) (he ▸ hd)
          rw [hA.1, (update_other _ s _ d _ hne).2]
        rw [this]
      have hdone2 : ∀ o2 ∈ os, o2.fobs.lmkId ∉ o.fobs.lmkId :: done := by
        intro o2 ho2 hmem
        rcases List.mem_cons.1 hmem with h1 | h1
        · exact hnd.1 (h1 ▸ List.mem_map_of_mem (fun o => o.fobs.lmkId) ho2)
        · exact hdone o2 (List.mem_cons_of_mem _ ho2) h1
      have hB := ih s2 s1 acc2 lists (o.fobs.lmkId :: done) h hnd.2 hdone2 hacc2
      refine ⟨?_, ?_⟩
      · rw [hB.1, hA.1]; rfl
      · refine hB.2.trans (List.Perm.map _ ?_)
        rw [List.map_cons]
        exact (List.perm_middle).symm

theorem update_retired (M N : Int) (x : LandmarkId) (s : LifecycleState) (lid : LandmarkId)
    (p : List LandmarkId) (hx : Retired N x s) (hlid : lid ≤ N) :
    Retired N x (update M s lid p) := by
  obtain ⟨h1, h2, h3⟩ := hx
  have hc := update_lid_cases M s lid p
  have hmono := update_landmarkCount_mono M s lid p
  refine ⟨?_, le_trans h2 hmono, fun h => update_seen_mono M s lid x p (h3 h)⟩
  intro l hl
  by_cases hne : l = lid
  · subst hne
    rcases hc.2 with ⟨_, h4, _⟩ | ⟨_, _, h4 | h4⟩
    · rw [h4]; intro he; rw [← he] at h2; linarith
    · rw [h4.2]; intro he
      by_cases hxN : x ≤ N
      · exact h3 hxN (he ▸ h4.1)
      · exact hxN (he ▸ hlid)
    · rw [h4.2]; exact h1 l h4.1
  · rw [(update_other M s lid l p hne).2]
    rw [(update_other M s lid l p hne).1] at hl
    exact h1 l hl

theorem runCalls_retired (M N : Int) (x : LandmarkId) (calls : List Call) :
    ∀ s : LifecycleState, Retired N x s → (∀ c ∈ calls, c.lid ≤ N) →
      Retired N x (runCalls M s calls) := by
  induction calls with
  | nil => intro s h _; exact h
  | cons c cs ih =>
    intro s h hc
    exact ih _ (update_retired M N x s c.lid c.previousKeyframeTrackIds h
      (hc c (List.mem_cons_self _ _))) (fun d hd => hc d (List.mem_cons_of_mem _ hd))

/-- The identifier replaced by a retirement is retired afterwards. -/
theorem retired_after_retirement (M N : Int) (s : LifecycleState) (lid : LandmarkId)
    (p : List LandmarkId) (hinv : DenseInv N s) (hseen : s.lmkIdToAge lid ≠ none)
    (hr : retires M s lid p = true) :
    Retired N (s.lmkIdToNewLmkId lid) (update M s lid p) := by
  have hu := update_of_retires M s lid p hr
  have hle := hinv.id_le lid hseen
  refine ⟨?_, ?_, ?_⟩
  · intro l hl
    by_cases hne : l = lid
    · subst hne
      rw [hu.2.1]; intro he; rw [← he] at hle; linarith
    · rw [(update_other M s lid l p hne).2]
      rw [(update_other M s lid l p hne).1] at hl
      intro he
      exact hne (hinv.id_inj l lid hl hseen he)
  · rw [hu.2.2]; linarith
  · intro hxN
    rcases hinv.id_range lid hseen with h1 | h1
    · rw [h1]; exact update_seen_mono M s lid lid p hseen
    · exfalso; linarith [h1.1]

/-! ## Evaluation lemmas -/

theorem pixelProjectionMismatch_self (p : Point2) : pixelProjectionMismatch p p = false := by
  simp [pixelProjectionMismatch, squaredNorm]

/-- The loop body when the observed pixel is the projected one and noise is
off. -/
theorem processObservation_exact {Pose Cal : Type} (env : KeyframeEnv Pose Cal)
    (st : LifecycleState × KeyframeLists) (o : NoisyObservation)
    (h : env.project env.camLPose env.K (landmarkPositions env.rows o.fobs.lmkId) = o.fobs.px)
    (hn : env.addNoise = false) :
    processObservation env st o =
      if ageOf (update env.trackerParams.maxFeatureAge_ st.1 o.fobs.lmkId
          (env.previousSmartStereoMeasurements.map Prod.fst)) o.fobs.lmkId = 0 then
        Except.ok (update env.trackerParams.maxFeatureAge_ st.1 o.fobs.lmkId
            (env.previousSmartStereoMeasurements.map Prod.fst), { st.2 with
          newSmartStereoMeasurements :=
            st.2.newSmartStereoMeasurements ++
              [((update env.trackerParams.maxFeatureAge_ st.1 o.fobs.lmkId
                (env.previousSmartStereoMeasurements.map Prod.fst)).lmkIdToNewLmkId o.fobs.lmkId,
                ⟨o.fobs.px.1, none, o.fobs.px.2⟩)] })
      else
        Except.ok (update env.trackerParams.maxFeatureAge_ st.1 o.fobs.lmkId
            (env.previousSmartStereoMeasurements.map Prod.fst), { st.2 with
          trackedSmartStereoMeasurements :=
            st.2.trackedSmartStereoMeasurements ++
              [((update env.trackerParams.maxFeatureAge_ st.1 o.fobs.lmkId
                (env.previousSmartStereoMeasurements.map Prod.fst)).lmkIdToNewLmkId o.fobs.lmkId,
                ⟨o.fobs.px.1, none, o.fobs.px.2⟩)]
          trackedkeypoints_3d :=
            st.2.trackedkeypoints_3d ++
              [env.transform_to env.camLPose (landmarkPositions env.rows o.fobs.lmkId)]
          trackerLandmarksAge := st.2.trackerLandmarksAge ++
            [ageOf (update env.trackerParams.maxFeatureAge_ st.1 o.fobs.lmkId
              (env.previousSmartStereoMeasurements.map Prod.fst)) o.fobs.lmkId] }) := by
  simp [processObservation, synthesize, h, hn, pixelProjectionMismatch_self]

/-- With the example camera every landmark on the optical axis projects to the
pixel `(0, 0)`. -/
theorem exampleEnv_projects (rows : List (LandmarkId × Vector3)) (M : Int)
    (prev : List SmartStereoMeasurement) (lid : LandmarkId)
    (h : (landmarkPositions rows lid).1 = 0 ∧ (landmarkPositions rows lid).2.1 = 0) :
    (exampleEnv rows M prev).project (exampleEnv rows M prev).camLPose (exampleEnv rows M prev).K
      (landmarkPositions (exampleEnv rows M prev).rows lid) = (obsAt lid).fobs.px := by
  simp [exampleEnv, identityCameraProject, obsAt, h.1, h.2]

/-! ## Lemmas on the selection dispatcher -/

theorem need_nr_features_nonneg (params : VioFrontEndParams) (tracked : List Vector3) :
    0 ≤ need_nr_features params tracked :=
  le_max_right _ _

/-- Truncating resize of a vector that is long enough. -/
theorem vectorResize_of_le (v : List SmartStereoMeasurement) (n : Nat) (h : n ≤ v.length) :
    vectorResize v n = v.take n := by
  unfold vectorResize
  rw [Nat.sub_eq_zero_of_le h]
  simp

theorem vectorResize_length (v : List SmartStereoMeasurement) (n : Nat) :
    (vectorResize v n).length = n := by
  unfold vectorResize
  simp only [List.length_append, List.length_take, List.length_replicate]
  omega

theorem repopulate_length (tmp : List SmartStereoMeasurement) (idx : List Nat) :
    ∀ out, repopulate tmp idx = Except.ok out → out.length = idx.length := by
  induction idx with
  | nil => intro out h; simp only [repopulate, Except.ok.injEq] at h; subst h; rfl
  | cons i is ih =>
    intro out h
    simp only [repopulate] at h
    split at h
    · cases h
    · split at h
      · cases h
      · rename_i ms hms
        simp only [Except.ok.injEq] at h
        subst h
        simp [ih ms hms]

/-- With every index in range the repopulation returns the candidates at the
selected indices, in the order of the index list. -/
theorem repopulate_ok (tmp : List SmartStereoMeasurement) (idx : List Nat)
    (h : ∀ i ∈ idx, i < tmp.length) :
    ∃ out, repopulate tmp idx = Except.ok out ∧
      out.map some = idx.map (fun i => tmp[i]?) := by
  induction idx with
  | nil => exact ⟨[], rfl, rfl⟩
  | cons i is ih =>
    obtain ⟨ms, hms, hmap⟩ := ih (fun j hj => h j (List.mem_cons_of_mem _ hj))
    have hi := h i (List.mem_cons_self _ _)
    refine ⟨tmp[i] :: ms, ?_, ?_⟩
    · simp only [repopulate, List.getElem?_eq_getElem hi, hms]
    · simp only [List.map_cons, hmap, List.getElem?_eq_getElem hi]

/-- An index out of range makes the repopulation throw. -/
theorem repopulate_error (tmp : List SmartStereoMeasurement) (idx : List Nat)
    (h : ∃ i ∈ idx, tmp.length ≤ i) :
    repopulate tmp idx = Except.error SimError.outOfRange := by
  induction idx with
  | nil => obtain ⟨i, hi, _⟩ := h; cases hi
  | cons j js ih =>
    simp only [repopulate]
    by_cases hj : j < tmp.length
    · have hrest : ∃ i ∈ js, tmp.length ≤ i := by
        obtain ⟨i, hi, hle⟩ := h
        rcases List.mem_cons.1 hi with h1 | h1
        · subst h1; omega
        · exact ⟨i, h1, hle⟩
      simp only [List.getElem?_eq_getElem hj, ih hrest]
    · simp only [List.getElem?_eq_none (Nat.le_of_not_lt hj)]

/-! ## Lemmas on the keyframe loop -/

/-- The observation loop performs the lifecycle updates `callsOf`. -/
theorem processObservations_state {Pose Cal : Type} (env : KeyframeEnv Pose Cal)
    (os : List NoisyObservation) :
    ∀ (st st1 : LifecycleState × KeyframeLists),
      processObservations env st os = Except.ok st1 →
      st1.1 = runCalls env.trackerParams.maxFeatureAge_ st.1
        (callsOf env.previousSmartStereoMeasurements os) := by
  induction os with
  | nil =>
    intro st st1 h
    simp only [processObservations, Except.ok.injEq] at h
    subst h
    rfl
  | cons o os ih =>
    intro st st1 h
    simp only [processObservations] at h
    split at h
    · cases h
    · rename_i st2 hstep
      have hA := (processObservation_ok env st.1 st2.1 st.2 st2.2 o hstep).1
      rw [ih st2 st1 h, hA]
      rfl

/-- The lifecycle state after a run of the keyframe loop is the state reached
by the lifecycle calls of the run. -/
theorem runKeyframes_lifecycle {Pose Cal S : Type} (sim : Simulation Pose Cal)
    (kfs : List (KeyframeInput Pose S)) :
    ∀ (rs : RunState) (r : RunState × List KeyframeLists),
      runKeyframes sim rs kfs = Except.ok r →
      r.1.lifecycle = runCalls sim.trackerParams.maxFeatureAge_ rs.lifecycle
        (callsOfRun sim rs kfs) := by
  induction kfs with
  | nil =>
    intro rs r h
    simp only [runKeyframes, Except.ok.injEq] at h
    subst h
    rfl
  | cons kf kfs ih =>
    intro rs r h
    simp only [runKeyframes] at h
    split at h
    · cases h
    · rename_i r1 hstep
      split at h
      · cases h
      · rename_i rest hrest
        simp only [Except.ok.injEq] at h
        subst h
        have h1 := ih r1.1 rest hrest
        have h2 : r1.1.lifecycle = runCalls sim.trackerParams.maxFeatureAge_ rs.lifecycle
            (callsOf rs.previousSmartStereoMeasurements kf.fobs_t) := by
          unfold processKeyframe at hstep
          split at hstep
          · cases hstep
          · rename_i st hobs
            split at hstep
            · cases hstep
            · simp only [Except.ok.injEq] at hstep
              subst hstep
              exact processObservations_state (sim.env rs kf) kf.fobs_t _ st hobs
        simp only [callsOfRun, hstep]
        rw [runCalls_append, ← h2]
        exact h1
/-! ## Lemmas on the rounding to binary64 -/

/-- A rational within less than a half of an integer rounds to that integer. -/
theorem roundHalfEven_of_abs_lt (m : ℚ) (k : Int) (h : |m - k| < 1 / 2) :
    roundHalfEven m = k := by
  rw [abs_lt] at h
  unfold roundHalfEven
  by_cases hk : (k : ℚ) ≤ m
  · have hf : ⌊m⌋ = k := by
      rw [Int.floor_eq_iff]
      constructor
      · exact hk
      · linarith [h.2]
    rw [hf, if_pos (by linarith [h.2])]
  · push_neg at hk
    have hf : ⌊m⌋ = k - 1 := by
      rw [Int.floor_eq_iff]
      push_cast
      constructor
      · linarith [h.1]
      · linarith
    rw [hf]
    push_cast
    rw [if_neg (by linarith [h.1]), if_pos (by linarith [h.1])]
    ring

/-- The rounded value is not below an integer that the argument is not below. -/
theorem le_roundHalfEven (m : ℚ) (k : Int) (h : (k : ℚ) ≤ m) : k ≤ roundHalfEven m := by
  have hf : k ≤ ⌊m⌋ := Int.le_floor.2 h
  unfold roundHalfEven
  split_ifs <;> omega

/-- The rounded value is not above an integer that the argument is not above. -/
theorem roundHalfEven_le (m : ℚ) (k : Int) (h : m ≤ (k : ℚ)) : roundHalfEven m ≤ k := by
  unfold roundHalfEven
  by_cases hm : m = (k : ℚ)
  · subst hm
    simp
  · have hlt : m < (k : ℚ) := lt_of_le_of_ne h hm
    have hf : ⌊m⌋ < k := Int.floor_lt.2 hlt
    split_ifs <;> omega

theorem toDouble_zero : toDouble 0 = 0 := by
  simp [toDouble]

/-- The value of `toDouble` on an argument of the binade `2 ^ e`, `e` being a
normal exponent: the significand is rounded at the spacing `2 ^ (e - 52)`. -/
theorem toDouble_of_binade (x : ℚ) (e : Int) (h1 : (2 : ℚ) ^ e ≤ |x|)
    (h2 : |x| < (2 : ℚ) ^ (e + 1)) (he : -1022 ≤ e) :
    toDouble x = (roundHalfEven (x / 2 ^ (e - 52)) : ℚ) * 2 ^ (e - 52) := by
  have hpos : 0 < |x| := lt_of_lt_of_le (zpow_pos (by norm_num) e) h1
  have hx : x ≠ 0 := abs_pos.1 hpos
  have hb : 1 < 2 := by norm_num
  have hlog : Int.log 2 |x| = e := by
    apply le_antisymm
    · have := (Int.lt_zpow_iff_log_lt hb hpos).1 (by exact_mod_cast h2)
      omega
    · exact (Int.zpow_le_iff_le_log hb hpos).1 (by exact_mod_cast h1)
  unfold toDouble
  rw [if_neg hx, hlog, max_eq_left he]

/-- Evaluation of `toDouble` from the binade of the argument and the integer
nearest to its scaled significand. -/
theorem toDouble_eq (x : ℚ) (e k : Int) (h1 : (2 : ℚ) ^ e ≤ |x|)
    (h2 : |x| < (2 : ℚ) ^ (e + 1)) (he : -1022 ≤ e)
    (hk : |x / 2 ^ (e - 52) - k| < 1 / 2) : toDouble x = (k : ℚ) * 2 ^ (e - 52) := by
  rw [toDouble_of_binade x e h1 h2 he, roundHalfEven_of_abs_lt _ k hk]

theorem toDouble_nonneg (x : ℚ) (h : 0 ≤ x) : 0 ≤ toDouble x := by
  unfold toDouble
  split_ifs
  · exact le_refl 0
  · apply mul_nonneg
    · exact_mod_cast le_roundHalfEven _ 0
        (by exact_mod_cast div_nonneg h (le_of_lt (zpow_pos (by norm_num) _)))
    · exact le_of_lt (zpow_pos (by norm_num) _)

/-- The rounded value is an integer nearest to the argument, and the even one
of the two when the argument lies half way between them. -/
theorem roundHalfEven_nearest (m : ℚ) :
    |(roundHalfEven m : ℚ) - m| ≤ 1 / 2 ∧
    (|(roundHalfEven m : ℚ) - m| = 1 / 2 → roundHalfEven m % 2 = 0) := by
  have h1 : (⌊m⌋ : ℚ) ≤ m := Int.floor_le m
  have h2 : m < (⌊m⌋ : ℚ) + 1 := Int.lt_floor_add_one m
  unfold roundHalfEven
  split_ifs with ha hb hc
  · have habs : |(⌊m⌋ : ℚ) - m| = m - ⌊m⌋ := by
      rw [abs_sub_comm, abs_of_nonneg (by linarith)]
    rw [habs]
    exact ⟨by linarith, fun h => absurd h (by linarith)⟩
  · have habs : |((⌊m⌋ + 1 : Int) : ℚ) - m| = ⌊m⌋ + 1 - m := by
      push_cast
      rw [abs_of_nonneg (by linarith)]
    rw [habs]
    exact ⟨by linarith, fun h => absurd h (by linarith)⟩
  · have habs : |(⌊m⌋ : ℚ) - m| = m - ⌊m⌋ := by
      rw [abs_sub_comm, abs_of_nonneg (by linarith)]
    rw [habs]
    exact ⟨by linarith, fun _ => hc⟩
  · have habs : |((⌊m⌋ + 1 : Int) : ℚ) - m| = ⌊m⌋ + 1 - m := by
      push_cast
      rw [abs_of_nonneg (by linarith)]
    rw [habs]
    exact ⟨by linarith, fun _ => by omega⟩

/-- The value `toDouble x` is a `double` nearest to `x`: a significand `k` of
at most 53 bits at the spacing of the binade of `x`, within half a spacing of
`x`, and with `k` even when `x` lies half way between two neighbours. -/
theorem toDouble_nearest (x : ℚ) (hx : x ≠ 0) :
    ∃ k : Int, toDouble x = (k : ℚ) * 2 ^ (max (Int.log 2 |x|) (-1022) - 52) ∧
      |k| ≤ 2 ^ 53 ∧
      |toDouble x - x| ≤ 2 ^ (max (Int.log 2 |x|) (-1022) - 52) / 2 ∧
      (|toDouble x - x| = 2 ^ (max (Int.log 2 |x|) (-1022) - 52) / 2 → k % 2 = 0) := by
  have hb : 1 < 2 := by norm_num
  have hpos : 0 < |x| := abs_pos.2 hx
  generalize hE : max (Int.log 2 |x|) (-1022) = E
  have hLE : Int.log 2 |x| ≤ E := by rw [← hE]; exact le_max_left _ _
  have hu : (0 : ℚ) < 2 ^ (E - 52) := zpow_pos (by norm_num) _
  have hval : toDouble x = (roundHalfEven (x / 2 ^ (E - 52)) : ℚ) * 2 ^ (E - 52) := by
    unfold toDouble
    rw [if_neg hx, hE]
  have hlt : |x| < 2 ^ (E + 1) := by
    have h1 : |x| < ((2 : Nat) : ℚ) ^ (Int.log 2 |x| + 1) := Int.lt_zpow_succ_log_self hb |x|
    have h2 : ((2 : Nat) : ℚ) ^ (Int.log 2 |x| + 1) ≤ ((2 : Nat) : ℚ) ^ (E + 1) :=
      zpow_le_zpow_right₀ (by norm_num) (by omega)
    exact_mod_cast lt_of_lt_of_le h1 h2
  have hsplit : (2 : ℚ) ^ (E + 1) = 2 ^ 53 * 2 ^ (E - 52) := by
    rw [show E + 1 = 53 + (E - 52) by ring, zpow_add₀ (by norm_num)]
    norm_num
  have hm : |x / 2 ^ (E - 52)| < 2 ^ 53 := by
    rw [abs_div, abs_of_pos hu, div_lt_iff₀ hu, ← hsplit]
    exact hlt
  have hn := roundHalfEven_nearest (x / 2 ^ (E - 52))
  have hdiff : toDouble x - x =
      ((roundHalfEven (x / 2 ^ (E - 52)) : ℚ) - x / 2 ^ (E - 52)) * 2 ^ (E - 52) := by
    rw [hval]
    field_simp
  have habs : |toDouble x - x| =
      |(roundHalfEven (x / 2 ^ (E - 52)) : ℚ) - x / 2 ^ (E - 52)| * 2 ^ (E - 52) := by
    rw [hdiff, abs_mul, abs_of_pos hu]
  refine ⟨roundHalfEven (x / 2 ^ (E - 52)), hval, ?_, ?_, ?_⟩
  · rw [abs_lt] at hm
    rw [abs_le]
    constructor
    · exact le_roundHalfEven _ _ (by push_cast; linarith [hm.1])
    · exact roundHalfEven_le _ _ (by push_cast; linarith [hm.2])
  · rw [habs]
    calc _ ≤ 1 / 2 * (2 : ℚ) ^ (E - 52) := mul_le_mul_of_nonneg_right hn.1 (le_of_lt hu)
      _ = 2 ^ (E - 52) / 2 := by ring
  · intro h
    rw [habs] at h
    apply hn.2
    have : |(roundHalfEven (x / 2 ^ (E - 52)) : ℚ) - x / 2 ^ (E - 52)| * 2 ^ (E - 52)
        = 1 / 2 * 2 ^ (E - 52) := by rw [h]; ring
    exact mul_right_cancel₀ (ne_of_gt hu) this

/-- Below `2 ^ 52` every multiple of a half is a `double` of the binade of `x`
or of a coarser one, so rounding `x` to a `double` does not cross it: a
multiple of a half that is not above `x` is not above `toDouble x`, and one
that is not below `x` is not below `toDouble x`. -/
theorem toDouble_half_integer_bounds (x : ℚ) (j : Int) (hx : 0 < x) (hlt : x < 2 ^ 52) :
    ((j : ℚ) / 2 ≤ x → (j : ℚ) / 2 ≤ toDouble x) ∧
    (x ≤ (j : ℚ) / 2 → toDouble x ≤ (j : ℚ) / 2) := by
  have hb : 1 < 2 := by norm_num
  have hax : |x| = x := abs_of_pos hx
  have hlog : Int.log 2 |x| < 52 := by
    rw [hax]
    exact (Int.lt_zpow_iff_log_lt hb hx).1 (by exact_mod_cast hlt)
  obtain ⟨d, hd⟩ : ∃ d : Nat, max (Int.log 2 |x|) (-1022) - 52 = -((d : Int) + 1) := by
    refine ⟨(51 - max (Int.log 2 |x|) (-1022)).toNat, ?_⟩
    have : max (Int.log 2 |x|) (-1022) ≤ 51 := max_le (by omega) (by norm_num)
    omega
  have hu : (2 : ℚ) ^ (max (Int.log 2 |x|) (-1022) - 52) = 1 / (2 ^ d * 2) := by
    rw [hd, zpow_neg, ← Nat.cast_succ, zpow_natCast, pow_succ]
    simp
  have hpow : (0 : ℚ) < 2 ^ d := pow_pos (by norm_num) d
  have hgrid : (j : ℚ) / 2 = ((j * 2 ^ d : Int) : ℚ) * (1 / (2 ^ d * 2)) := by
    push_cast
    field_simp
    ring
  have hxu : x / (1 / (2 ^ d * 2)) = x * (2 ^ d * 2) := by
    field_simp
  have hval : toDouble x =
      (roundHalfEven (x * (2 ^ d * 2)) : ℚ) * (1 / (2 ^ d * 2)) := by
    unfold toDouble
    rw [if_neg (ne_of_gt hx), hu, hxu]
  have hupos : (0 : ℚ) < 1 / (2 ^ d * 2) := by positivity
  constructor
  · intro hle
    rw [hval, hgrid]
    apply mul_le_mul_of_nonneg_right _ (le_of_lt hupos)
    have : ((j * 2 ^ d : Int) : ℚ) ≤ x * (2 ^ d * 2) := by
      push_cast
      have := mul_le_mul_of_nonneg_right hle (show (0 : ℚ) ≤ 2 ^ d * 2 by positivity)
      calc (j : ℚ) * 2 ^ d = (j : ℚ) / 2 * (2 ^ d * 2) := by ring
        _ ≤ x * (2 ^ d * 2) := this
    exact_mod_cast le_roundHalfEven _ _ this
  · intro hle
    rw [hval, hgrid]
    apply mul_le_mul_of_nonneg_right _ (le_of_lt hupos)
    have : x * (2 ^ d * 2) ≤ ((j * 2 ^ d : Int) : ℚ) := by
      push_cast
      have := mul_le_mul_of_nonneg_right hle (show (0 : ℚ) ≤ 2 ^ d * 2 by positivity)
      calc x * (2 ^ d * 2) ≤ (j : ℚ) / 2 * (2 ^ d * 2) := this
        _ = (j : ℚ) * 2 ^ d := by ring
    exact_mod_cast roundHalfEven_le _ _ this

/-! ## Lemmas on the predicted poses -/

theorem posesAtFutureKeyframes_length {P : Type} [Group P] (SecToNsec : ℚ → Int)
    (NsecToSec : Int → ℚ) (h dt : ℚ) (t_k : Int) (gt : Int → P) (est W : P) :
    (posesAtFutureKeyframes SecToNsec NsecToSec h dt t_k gt est W).length
      = nrKfInHorizon h dt + 1 := by
  simp [posesAtFutureKeyframes]

theorem posesAtFutureKeyframes_getElem? {P : Type} [Group P] (SecToNsec : ℚ → Int)
    (NsecToSec : Int → ℚ) (h dt : ℚ) (t_k : Int) (gt : Int → P) (est W : P) (kk : Nat)
    (hkk : kk ≤ nrKfInHorizon h dt) :
    (posesAtFutureKeyframes SecToNsec NsecToSec h dt t_k gt est W)[kk]? =
      some { pose := est * (W⁻¹ * gt (timestamp_kk SecToNsec dt t_k kk))
             timestampInSec := NsecToSec (timestamp_kk SecToNsec dt t_k kk) } := by
  unfold posesAtFutureKeyframes
  rw [List.getElem?_map, List.getElem?_range (by omega)]
  rfl

/-- The rounding of a non-negative value is not negative. -/
theorem cRound_nonneg_of_nonneg (x : ℚ) (hx : 0 ≤ x) : 0 ≤ cRound x := by
  unfold cRound
  rw [if_pos hx]
  exact Int.floor_nonneg.2 (by linarith)

/-- On a non-negative value `round` is the integer within a half, the half
itself going up. -/
theorem cRound_bounds (x : ℚ) (hx : 0 ≤ x) :
    (cRound x : ℚ) ≤ x + 1 / 2 ∧ x + 1 / 2 < (cRound x : ℚ) + 1 := by
  unfold cRound
  rw [if_pos hx]
  exact ⟨Int.floor_le _, Int.lt_floor_add_one _⟩

/-- The `double` quotient of line 338 for a non-negative horizon. -/
theorem doubleQuotient_nonneg (h dt : ℚ) (hh : 0 ≤ h) (hdt : 0 < toDouble dt) :
    0 ≤ toDouble h / toDouble dt ∧ 0 ≤ toDouble (toDouble h / toDouble dt) :=
  ⟨div_nonneg (toDouble_nonneg h hh) (le_of_lt hdt),
    toDouble_nonneg _ (div_nonneg (toDouble_nonneg h hh) (le_of_lt hdt))⟩

theorem nrKfInHorizon_cast (h dt : ℚ) (hh : 0 ≤ h) (hdt : 0 < toDouble dt) :
    ((nrKfInHorizon h dt : Nat) : Int) =
      cRound (toDouble (toDouble h / toDouble dt)) := by
  unfold nrKfInHorizon
  exact Int.toNat_of_nonneg (cRound_nonneg_of_nonneg _ (doubleQuotient_nonneg h dt hh hdt).2)

/-- The rounding of a `double` quotient below `2 ^ 52` is the rounding of the
exact quotient or the integer above it. -/
theorem cRound_toDouble_bounds (x : ℚ) (hx : 0 ≤ x) (hlt : x < 2 ^ 52) :
    cRound x ≤ cRound (toDouble x) ∧ cRound (toDouble x) ≤ cRound x + 1 := by
  rcases eq_or_lt_of_le hx with h0 | hpos
  · rw [← h0, toDouble_zero]
    omega
  · have hq := toDouble_nonneg x hx
    have hb := cRound_bounds x hx
    have hlo := (toDouble_half_integer_bounds x (2 * cRound x - 1) hpos hlt).1
      (by push_cast; linarith [hb.1])
    have hhi := (toDouble_half_integer_bounds x (2 * cRound x + 1) hpos hlt).2
      (by push_cast; linarith [hb.2])
    push_cast at hlo hhi
    unfold cRound
    rw [if_pos hq, if_pos hx]
    have hb' : (⌊x + 1 / 2⌋ : ℚ) ≤ x + 1 / 2 ∧ x + 1 / 2 < (⌊x + 1 / 2⌋ : ℚ) + 1 :=
      ⟨Int.floor_le _, Int.lt_floor_add_one _⟩
    unfold cRound at hlo hhi
    rw [if_pos hx] at hlo hhi
    constructor
    · exact Int.le_floor.2 (by linarith)
    · have : ⌊toDouble x + 1 / 2⌋ < ⌊x + 1 / 2⌋ + 1 + 1 :=
        Int.floor_lt.2 (by push_cast; linarith)
      omega

/-- Evaluation of the horizon step count from the roundings of its parts. -/
theorem nrKfInHorizon_eq (h dt H D q : ℚ) (n : Nat) (hH : toDouble h = H)
    (hD : toDouble dt = D) (hq : toDouble (H / D) = q) (hn : cRound q = (n : Int)) :
    nrKfInHorizon h dt = n := by
  unfold nrKfInHorizon
  rw [hH, hD, hq, hn, Int.toNat_ofNat]

theorem toDouble_three : toDouble 3 = 3 := by
  rw [toDouble_eq 3 1 6755399441055744 (by norm_num [abs_of_pos])
    (by norm_num [abs_of_pos]) (by norm_num) (by rw [abs_lt]; norm_num)]
  norm_num

/-- The `double` written `0.4` in `main` (line 152). -/
theorem toDouble_two_fifths :
    toDouble (2 / 5) = 3602879701896397 / 9007199254740992 := by
  rw [toDouble_eq (2 / 5) (-2) 7205759403792794 (by norm_num [abs_of_pos])
    (by norm_num [abs_of_pos]) (by norm_num) (by rw [abs_lt]; norm_num)]
  norm_num

/-- The value that `0.4` denotes is a `double`: rounding it again changes
nothing. -/
theorem toDouble_double_two_fifths :
    toDouble (3602879701896397 / 9007199254740992) = 3602879701896397 / 9007199254740992 := by
  rw [toDouble_eq (3602879701896397 / 9007199254740992) (-2) 7205759403792794
    (by norm_num [abs_of_pos]) (by norm_num [abs_of_pos]) (by norm_num)
    (by rw [abs_lt]; norm_num)]
  norm_num

theorem toDouble_seven_tenths :
    toDouble (7 / 10) = 3152519739159347 / 4503599627370496 := by
  rw [toDouble_eq (7 / 10) (-1) 6305039478318694 (by norm_num [abs_of_pos])
    (by norm_num [abs_of_pos]) (by norm_num) (by rw [abs_lt]; norm_num)]
  norm_num

theorem toDouble_one_fifth :
    toDouble (1 / 5) = 3602879701896397 / 18014398509481984 := by
  rw [toDouble_eq (1 / 5) (-3) 7205759403792794 (by norm_num [abs_of_pos])
    (by norm_num [abs_of_pos]) (by norm_num) (by rw [abs_lt]; norm_num)]
  norm_num

/-- The quotient `3 / 0.4` in `double` arithmetic is `7.5`: the exact quotient
of the two `double` values lies just below it. -/
theorem toDouble_three_by_two_fifths :
    toDouble (3 / (3602879701896397 / 9007199254740992)) = 15 / 2 := by
  rw [toDouble_eq (3 / (3602879701896397 / 9007199254740992)) 2 8444249301319680
    (by norm_num [abs_of_pos]) (by norm_num [abs_of_pos]) (by norm_num)
    (by rw [abs_lt]; norm_num)]
  norm_num

/-- The quotient `0.7 / 0.2` in `double` arithmetic is the `double` just below
`3.5`. -/
theorem toDouble_seven_tenths_by_one_fifth :
    toDouble ((3152519739159347 / 4503599627370496) / (3602879701896397 / 18014398509481984)) =
      7881299347898367 / 2251799813685248 := by
  rw [toDouble_eq ((3152519739159347 / 4503599627370496) /
      (3602879701896397 / 18014398509481984)) 1 7881299347898367
    (by norm_num [abs_of_pos]) (by norm_num [abs_of_pos]) (by norm_num)
    (by rw [abs_lt]; norm_num)]
  norm_num

/-- With the interval `0.4` that `main` sets (line 152) and a horizon of `3`
seconds, the code counts `8` steps. -/
theorem nrKfInHorizon_three_two_fifths : nrKfInHorizon 3 (2 / 5) = 8 :=
  nrKfInHorizon_eq 3 (2 / 5) 3 (3602879701896397 / 9007199254740992) (15 / 2) 8
    toDouble_three toDouble_two_fifths toDouble_three_by_two_fifths
    (by simp only [cRound]; norm_num)

/-- The same count when the interval is given as the `double` itself. -/
theorem nrKfInHorizon_three_double_two_fifths :
    nrKfInHorizon 3 (3602879701896397 / 9007199254740992) = 8 :=
  nrKfInHorizon_eq 3 (3602879701896397 / 9007199254740992) 3
    (3602879701896397 / 9007199254740992) (15 / 2) 8
    toDouble_three toDouble_double_two_fifths toDouble_three_by_two_fifths
    (by simp only [cRound]; norm_num)

/-- A horizon of `0.7` seconds and keyframes `0.2` seconds apart give `3`
steps: the `double` quotient is below `3.5`. -/
theorem nrKfInHorizon_seven_tenths_one_fifth : nrKfInHorizon (7 / 10) (1 / 5) = 3 :=
  nrKfInHorizon_eq (7 / 10) (1 / 5) (3152519739159347 / 4503599627370496)
    (3602879701896397 / 18014398509481984) (7881299347898367 / 2251799813685248) 3
    toDouble_seven_tenths toDouble_one_fifth toDouble_seven_tenths_by_one_fifth
    (by simp only [cRound]; norm_num)

theorem nrKfInHorizon_zero_two_fifths : nrKfInHorizon 0 (2 / 5) = 0 :=
  nrKfInHorizon_eq 0 (2 / 5) 0 (3602879701896397 / 9007199254740992) 0 0
    toDouble_zero toDouble_two_fifths (by rw [zero_div, toDouble_zero])
    (by simp only [cRound]; norm_num)

/-- The product `3 * 0.4` in `double` arithmetic: the exact product lies half
way between two `double` values and goes to the one with the even significand. -/
theorem toDouble_three_times_two_fifths :
    toDouble (3 * (3602879701896397 / 9007199254740992)) =
      1351079888211149 / 1125899906842624 := by
  rw [toDouble_of_binade (3 * (3602879701896397 / 9007199254740992)) 0
    (by norm_num [abs_of_pos]) (by norm_num [abs_of_pos]) (by norm_num)]
  have hr : roundHalfEven (3 * (3602879701896397 / 9007199254740992) / 2 ^ ((0 : Int) - 52)) =
      5404319552844596 := by
    have hm : (3 * (3602879701896397 / 9007199254740992) / 2 ^ ((0 : Int) - 52) : ℚ) =
        10808639105689191 / 2 := by norm_num
    have hf : ⌊(10808639105689191 / 2 : ℚ)⌋ = 5404319552844595 := by
      rw [Int.floor_eq_iff]
      norm_num
    rw [hm]
    unfold roundHalfEven
    rw [hf]
    norm_num
  rw [hr]
  norm_num

/-- Three intervals of `0.4` seconds after a keyframe at `1 s`, in
nanoseconds. -/
theorem timestamp_kk_example :
    timestamp_kk exampleSecToNsec (2 / 5) 1000000000 3 = 2200000000 := by
  unfold timestamp_kk
  rw [toDouble_two_fifths]
  have h3 : (((3 : Nat) : ℚ)) = 3 := by norm_num
  rw [h3, toDouble_three_times_two_fifths]
  have hf : ⌊(1351079888211149 / 1125899906842624 : ℚ) * 1000000000⌋ = 1200000000 := by
    rw [Int.floor_eq_iff]
    norm_num
  simp only [exampleSecToNsec]
  rw [hf]
  norm_num

/-! ## Lemmas on the vectors filled by the observation loop -/

/-- The age read after an update is `0` or lies between `1` and the threshold. -/
theorem returnedAge_range (M : Int) (s : LifecycleState) (lid : LandmarkId)
    (p : List LandmarkId) (h : AgesNonneg s) :
    ageOf (update M s lid p) lid = 0 ∨
      (1 ≤ ageOf (update M s lid p) lid ∧ ageOf (update M s lid p) lid ≤ M) := by
  cases hr : retires M s lid p
  · cases hs : s.lmkIdToAge lid with
    | none =>
      left
      simp [ageOf, (update_of_first_not_retires M s lid p hs hr).1]
    | some a =>
      right
      have ha := h lid a hs
      have hnot : ¬ ((0 < a + 1 ∧ s.lmkIdToNewLmkId lid ∉ p) ∨ M < a + 1) := by
        rw [← retires_of_seen M s lid p a hs]; simp [hr]
      push_neg at hnot
      simp only [ageOf, (update_of_seen_not_retires M s lid p a hs hr).1, Option.getD_some]
      exact ⟨by omega, hnot.2⟩
  · left
    simp [ageOf, (update_of_retires M s lid p hr).1]

/-- One pass through the loop body, spelled out on the four vectors: either
the age is `0` and one measurement is appended to the new candidates, or the
age is not `0` and one element is appended to each of the three tracked
vectors. -/
theorem processObservation_lists {Pose Cal : Type} (env : KeyframeEnv Pose Cal)
    (s s1 : LifecycleState) (acc acc1 : KeyframeLists) (o : NoisyObservation)
    (h : processObservation env (s, acc) o = Except.ok (s1, acc1)) :
    s1 = update env.trackerParams.maxFeatureAge_ s o.fobs.lmkId
      (env.previousSmartStereoMeasurements.map Prod.fst) ∧
    ∃ stereo_px : StereoPoint2,
      (ageOf s1 o.fobs.lmkId = 0 ∧
        acc1 = { acc with
          newSmartStereoMeasurements :=
            acc.newSmartStereoMeasurements ++ [(s1.lmkIdToNewLmkId o.fobs.lmkId, stereo_px)] }) ∨
      (ageOf s1 o.fobs.lmkId ≠ 0 ∧
        acc1 = { acc with
          trackedSmartStereoMeasurements :=
            acc.trackedSmartStereoMeasurements ++
              [(s1.lmkIdToNewLmkId o.fobs.lmkId, stereo_px)]
          trackedkeypoints_3d :=
            acc.trackedkeypoints_3d ++
              [env.transform_to env.camLPose (landmarkPositions env.rows o.fobs.lmkId)]
          trackerLandmarksAge := acc.trackerLandmarksAge ++ [ageOf s1 o.fobs.lmkId] }) := by
  unfold processObservation at h
  simp only at h
  split at h
  · cases h
  · rename_i stereo_px _
    split_ifs at h with h0
    · simp only [Except.ok.injEq, Prod.mk.injEq] at h
      obtain ⟨h1, h2⟩ := h
      subst h1 h2
      exact ⟨rfl, stereo_px, Or.inl ⟨h0, rfl⟩⟩
    · simp only [Except.ok.injEq, Prod.mk.injEq] at h
      obtain ⟨h1, h2⟩ := h
      subst h1 h2
      exact ⟨rfl, stereo_px, Or.inr ⟨h0, rfl⟩⟩

/-- The loop body throws nothing but the pixel-projection mismatch. -/
theorem processObservation_error {Pose Cal : Type} (env : KeyframeEnv Pose Cal)
    (st : LifecycleState × KeyframeLists) (o : NoisyObservation) (e : SimError)
    (h : processObservation env st o = Except.error e) :
    e = SimError.pixelProjectionMismatch := by
  unfold processObservation synthesize at h
  simp only at h
  split_ifs at h <;> simp at h <;> exact h.symm

theorem processObservations_error {Pose Cal : Type} (env : KeyframeEnv Pose Cal)
    (os : List NoisyObservation) :
    ∀ (st : LifecycleState × KeyframeLists) (e : SimError),
      processObservations env st os = Except.error e →
      e = SimError.pixelProjectionMismatch := by
  induction os with
  | nil => intro st e h; simp [processObservations] at h
  | cons o os ih =>
    intro st e h
    simp only [processObservations] at h
    split at h
    · rename_i e1 hstep
      simp only [Except.error.injEq] at h
      subst h
      exact processObservation_error env st o e1 hstep
    · exact ih _ e h

/-- The three tracked vectors grow together, and tracked ages stay within
`1 .. maxFeatureAge_`, along the observation loop. -/
theorem processObservations_tracked {Pose Cal : Type} (env : KeyframeEnv Pose Cal)
    (os : List NoisyObservation) :
    ∀ (s s1 : LifecycleState) (acc lists : KeyframeLists),
      processObservations env (s, acc) os = Except.ok (s1, lists) →
      AgesNonneg s →
      acc.trackedSmartStereoMeasurements.length = acc.trackedkeypoints_3d.length →
      acc.trackerLandmarksAge.length = acc.trackedkeypoints_3d.length →
      (∀ a ∈ acc.trackerLandmarksAge, 1 ≤ a ∧ a ≤ env.trackerParams.maxFeatureAge_) →
      lists.trackedSmartStereoMeasurements.length = lists.trackedkeypoints_3d.length ∧
      lists.trackerLandmarksAge.length = lists.trackedkeypoints_3d.length ∧
      (∀ a ∈ lists.trackerLandmarksAge, 1 ≤ a ∧ a ≤ env.trackerParams.maxFeatureAge_) := by
  induction os with
  | nil =>
    intro s s1 acc lists h _ h1 h2 h3
    simp only [processObservations, Except.ok.injEq, Prod.mk.injEq] at h
    obtain ⟨_, hl⟩ := h
    subst hl
    exact ⟨h1, h2, h3⟩
  | cons o os ih =>
    intro s s1 acc lists h hnn h1 h2 h3
    simp only [processObservations] at h
    split at h
    · cases h
    · rename_i st2 hstep
      obtain ⟨s2, acc2⟩ := st2
      obtain ⟨hs2, px, hcase⟩ := processObservation_lists env s s2 acc acc2 o hstep
      have hnn2 : AgesNonneg s2 := hs2 ▸ update_agesNonneg _ s _ _ hnn
      have hrange := returnedAge_range env.trackerParams.maxFeatureAge_ s o.fobs.lmkId
        (env.previousSmartStereoMeasurements.map Prod.fst) hnn
      rw [← hs2] at hrange
      rcases hcase with ⟨_, hacc⟩ | ⟨hne, hacc⟩
      · subst hacc
        exact ih s2 s1 _ lists h hnn2 h1 h2 h3
      · subst hacc
        refine ih s2 s1 _ lists h hnn2 ?_ ?_ ?_
        · simp [h1]
        · simp [h2]
        · intro a ha
          simp only [List.mem_append, List.mem_singleton] at ha
          rcases ha with ha | ha
          · exact h3 a ha
          · subst ha
            rcases hrange with h0 | h0
            · exact absurd h0 hne
            · exact h0

/-- The selection throws nothing but the out-of-range error when the tracked
ages are as many as the tracked points. -/
theorem select_error {S : Type} (params : VioFrontEndParams) (didFirstOptimization : Bool)
    (shuffle : Nat → List SmartStereoMeasurement → List SmartStereoMeasurement)
    (seedShuffle : Nat) (selector : SelectorCall S → List Nat) (poses : List S)
    (tracked : List Vector3) (ages : List Int) (new : List SmartStereoMeasurement)
    (hlen : ages.length = tracked.length) :
    select params didFirstOptimization shuffle seedShuffle selector poses tracked ages new
      ≠ Except.error SimError.keypointAgeInconsistent := by
  unfold select
  split_ifs with h1 h2 h3
  · simp
  · exact absurd (by simp [keypointLife, hlen]) h3
  · intro h
    generalize selector (selectorCall params poses tracked ages new) = idx at h
    induction idx with
    | nil => simp [repopulate] at h
    | cons i is ih =>
      simp only [repopulate] at h
      split at h
      · simp at h
      · split at h
        · rename_i e he
          simp only [Except.error.injEq] at h
          subst h
          exact ih he
        · simp at h
  · simp

/-- After a keyframe the flag `didFirstOptimization` is set. -/
theorem processKeyframe_didFirstOptimization {Pose Cal S : Type} (sim : Simulation Pose Cal)
    (rs : RunState) (kf : KeyframeInput Pose S) (r : RunState × KeyframeLists)
    (h : processKeyframe sim rs kf = Except.ok r) : r.1.didFirstOptimization = true := by
  unfold processKeyframe at h
  split at h
  · cases h
  · split at h
    · cases h
    · simp only [Except.ok.injEq] at h
      subst h
      rfl

/-- The flag `didFirstOptimization` is set exactly when a keyframe after
`initial_k` has been processed: the warm branch is entered only then. -/
theorem runKeyframes_didFirstOptimization {Pose Cal S : Type} (sim : Simulation Pose Cal)
    (kfs : List (KeyframeInput Pose S)) :
    ∀ (rs : RunState) (r : RunState × List KeyframeLists),
      runKeyframes sim rs kfs = Except.ok r →
      r.1.didFirstOptimization = (rs.didFirstOptimization || !kfs.isEmpty) := by
  induction kfs with
  | nil =>
    intro rs r h
    simp only [runKeyframes, Except.ok.injEq] at h
    subst h
    simp
  | cons kf kfs ih =>
    intro rs r h
    simp only [runKeyframes] at h
    split at h
    · cases h
    · rename_i r1 hstep
      split at h
      · cases h
      · rename_i rest hrest
        simp only [Except.ok.injEq] at h
        subst h
        have h1 := ih r1.1 rest hrest
        rw [processKeyframe_didFirstOptimization sim rs kf r1 hstep] at h1
        simp [h1]

/-- The vectors filled by the observation loop, started on empty vectors from
a state with non-negative ages. -/
theorem processObservations_tracked_empty {Pose Cal : Type} (env : KeyframeEnv Pose Cal)
    (os : List NoisyObservation) (s s1 : LifecycleState) (lists : KeyframeLists)
    (h : processObservations env (s, KeyframeLists.empty) os = Except.ok (s1, lists))
    (hnn : AgesNonneg s) :
    lists.trackedSmartStereoMeasurements.length = lists.trackedkeypoints_3d.length ∧
    lists.trackerLandmarksAge.length = lists.trackedkeypoints_3d.length ∧
    (∀ a ∈ lists.trackerLandmarksAge, 1 ≤ a ∧ a ≤ env.trackerParams.maxFeatureAge_) :=
  processObservations_tracked env os s s1 KeyframeLists.empty lists h hnn rfl rfl
    (fun _ ha => absurd ha (List.not_mem_nil _))

/-- The tracked vectors have equal lengths whatever the lifecycle state is. -/
theorem processObservations_lengths {Pose Cal : Type} (env : KeyframeEnv Pose Cal)
    (os : List NoisyObservation) :
    ∀ (st st1 : LifecycleState × KeyframeLists),
      processObservations env st os = Except.ok st1 →
      st.2.trackedSmartStereoMeasurements.length = st.2.trackedkeypoints_3d.length →
      st.2.trackerLandmarksAge.length = st.2.trackedkeypoints_3d.length →
      st1.2.trackedSmartStereoMeasurements.length = st1.2.trackedkeypoints_3d.length ∧
      st1.2.trackerLandmarksAge.length = st1.2.trackedkeypoints_3d.length := by
  induction os with
  | nil =>
    intro st st1 h h1 h2
    simp only [processObservations, Except.ok.injEq] at h
    subst h
    exact ⟨h1, h2⟩
  | cons o os ih =>
    intro st st1 h h1 h2
    simp only [processObservations] at h
    split at h
    · cases h
    · rename_i st2 hstep
      obtain ⟨_, px, hcase⟩ := processObservation_lists env st.1 st2.1 st.2 st2.2 o hstep
      rcases hcase with ⟨_, hacc⟩ | ⟨_, hacc⟩
      · exact ih st2 st1 h (by rw [hacc]; exact h1) (by rw [hacc]; exact h2)
      · exact ih st2 st1 h (by rw [hacc]; simp [h1]) (by rw [hacc]; simp [h2])

/-- A keyframe never ends with the keypoint-age-inconsistent error. -/
theorem processKeyframe_ne_inconsistent {Pose Cal S : Type} (sim : Simulation Pose Cal)
    (rs : RunState) (kf : KeyframeInput Pose S) :
    processKeyframe sim rs kf ≠ Except.error SimError.keypointAgeInconsistent := by
  intro h
  unfold processKeyframe at h
  split at h
  · rename_i e he
    simp only [Except.error.injEq] at h
    subst h
    have := processObservations_error _ _ _ _ he
    cases this
  · rename_i st hst
    have hlen := processObservations_lengths (sim.env rs kf) kf.fobs_t _ st hst rfl rfl
    split at h
    · rename_i e he
      simp only [Except.error.injEq] at h
      subst h
      exact select_error _ _ _ _ _ _ _ _ _ hlen.2 he
    · cases h

theorem runKeyframes_ne_inconsistent {Pose Cal S : Type} (sim : Simulation Pose Cal)
    (kfs : List (KeyframeInput Pose S)) :
    ∀ rs : RunState, runKeyframes sim rs kfs ≠ Except.error SimError.keypointAgeInconsistent := by
  induction kfs with
  | nil => intro rs h; simp [runKeyframes] at h
  | cons kf kfs ih =>
    intro rs h
    simp only [runKeyframes] at h
    split at h
    · rename_i e he
      simp only [Except.error.injEq] at h
      subst h
      exact processKeyframe_ne_inconsistent sim rs kf he
    · rename_i r1 _
      split at h
      · rename_i e he
        simp only [Except.error.injEq] at h
        subst h
        exact ih r1.1 he
      · cases h

/-- Second keyframe of the example on the table numbered `0, 1`: landmark `1`
is retired and becomes the new candidate `3`, landmark `0` is tracked. -/
theorem exampleEnv_second_keyframe :
    processObservations (exampleEnv denseRows 2 [measAt 0])
      (reached 2 denseRows [⟨0, []⟩, ⟨1, []⟩], KeyframeLists.empty) [obsAt 1, obsAt 0] =
      Except.ok (reached 2 denseRows [⟨0, []⟩, ⟨1, []⟩, ⟨1, [0]⟩, ⟨0, [0]⟩],
        { trackedSmartStereoMeasurements := [measAt 0]
          newSmartStereoMeasurements := [measAt 3]
          trackedkeypoints_3d := [(0, 0, 1)]
          trackerLandmarksAge := [1] }) := by
  simp only [processObservations]
  rw [processObservation_exact _ _ _ (exampleEnv_projects _ _ _ _ (by decide)) rfl]
  rw [if_pos (by decide)]
  simp only []
  rw [processObservation_exact _ _ _ (exampleEnv_projects _ _ _ _ (by decide)) rfl]
  rw [if_neg (by decide)]
  rfl

/-! ## Lemmas on candidates dropped by the selection -/

/-- C1. In every lifecycle state reached from the empty state, for every
update call: the returned age is `0` exactly when the call is a first
sighting or a retirement, in that case the returned track identifier is one
the call itself assigned, and in every other call the track identifier is
the one stored before and the returned age is the stored age plus one. -/
theorem age_zero_iff_issued (M : Int) (rows : List (LandmarkId × Vector3))
    (calls : List Call) (lid : LandmarkId) (p : List LandmarkId) :
    (returnedAge M (reached M rows calls) lid p = 0 ↔
      (firstSighting (reached M rows calls) lid = true ∨
        retires M (reached M rows calls) lid p = true)) ∧
    (returnedAge M (reached M rows calls) lid p = 0 ↔
      activeId M (reached M rows calls) lid p ∈ idsIssuedBy M (reached M rows calls) lid p) ∧
    (¬ (firstSighting (reached M rows calls) lid = true ∨
        retires M (reached M rows calls) lid p = true) →
      activeId M (reached M rows calls) lid p = (reached M rows calls).lmkIdToNewLmkId lid ∧
      ∃ a, (reached M rows calls).lmkIdToAge lid = some a ∧
        returnedAge M (reached M rows calls) lid p = a + 1) := by
  have hnn := reached_agesNonneg M rows calls
  generalize reached M rows calls = s at hnn
  unfold returnedAge activeId idsIssuedBy firstSighting ageOf
  cases hr : retires M s lid p
  · cases hs : s.lmkIdToAge lid with
    | none =>
      have h := update_of_first_not_retires M s lid p hs hr
      simp [h.1, h.2]
    | some a =>
      have h := update_of_seen_not_retires M s lid p a hs hr
      have ha := hnn lid a hs
      have hne : a + 1 ≠ 0 := by omega
      simp [h.1, h.2, hne]
  · have h := update_of_retires M s lid p hr
    simp [h.1, h.2.1]

/-- Retirement after an absence, in runs where no observed landmark identifier
exceeds the number of landmarks in the table (tables numbered `0..N-1` or
`1..N`): a previously seen landmark whose current track identifier is absent
from the previous batch is retired by the next update, the returned age is
`0`, and the returned track identifier, the incremented counter, was never
assigned before. -/
theorem retired_when_absent_from_previous (M : Int) (rows : List (LandmarkId × Vector3))
    (calls : List Call) (lid : LandmarkId) (p : List LandmarkId)
    (hdense : ∀ c ∈ calls, c.lid ≤ landmarkPositionsSize rows)
    (hseen : (reached M rows calls).lmkIdToAge lid ≠ none)
    (habsent : (reached M rows calls).lmkIdToNewLmkId lid ∉ p) :
    retires M (reached M rows calls) lid p = true ∧
    returnedAge M (reached M rows calls) lid p = 0 ∧
    activeId M (reached M rows calls) lid p = (reached M rows calls).landmarkCount + 1 ∧
    activeId M (reached M rows calls) lid p ∉ issuedIds M (initialState rows) calls := by
  have hnn := reached_agesNonneg M rows calls
  have hle := issuedIds_le M (landmarkPositionsSize rows) calls (initialState rows)
    (le_refl _) hdense
  change ∀ x ∈ issuedIds M (initialState rows) calls, x ≤ (reached M rows calls).landmarkCount
    at hle
  generalize reached M rows calls = s at hnn hseen habsent hle
  cases hs : s.lmkIdToAge lid with
  | none => exact absurd hs hseen
  | some a =>
    have ha := hnn lid a hs
    have hr : retires M s lid p = true :=
      (retires_of_seen M s lid p a hs).2 (Or.inl ⟨by omega, habsent⟩)
    have h := update_of_retires M s lid p hr
    refine ⟨hr, ?_, h.2.1, ?_⟩
    · simp [returnedAge, ageOf, h.1]
    · intro hmem
      have := hle _ hmem
      unfold activeId at this
      rw [h.2.1] at this
      linarith

/-- Example of retirement after an absence on a table numbered `0, 1`: keyframe
A observes both landmarks, keyframe B observes landmark `1` only (its batch is
`[1]`), and in keyframe C landmark `0` comes back: it is retired and receives
the identifier `3`, which was never issued. -/
theorem retired_when_absent_from_previous_witness :
    retires 5 (reached 5 denseRows [⟨0, []⟩, ⟨1, []⟩, ⟨1, [0, 1]⟩]) 0 [1] = true ∧
    returnedAge 5 (reached 5 denseRows [⟨0, []⟩, ⟨1, []⟩, ⟨1, [0, 1]⟩]) 0 [1] = 0 ∧
    activeId 5 (reached 5 denseRows [⟨0, []⟩, ⟨1, []⟩, ⟨1, [0, 1]⟩]) 0 [1] =
      (reached 5 denseRows [⟨0, []⟩, ⟨1, []⟩, ⟨1, [0, 1]⟩]).landmarkCount + 1 ∧
    activeId 5 (reached 5 denseRows [⟨0, []⟩, ⟨1, []⟩, ⟨1, [0, 1]⟩]) 0 [1] ∉
      issuedIds 5 (initialState denseRows) [⟨0, []⟩, ⟨1, []⟩, ⟨1, [0, 1]⟩] :=
  retired_when_absent_from_previous 5 denseRows [⟨0, []⟩, ⟨1, []⟩, ⟨1, [0, 1]⟩] 0 [1]
    (by decide) (by decide) (by decide)

/-- C2. A landmark retired after an absence is to receive a track identifier
that differs from every identifier issued before, with age `0`; the code
resets the age but misses the new identifier on a table with an identifier
above its size. The table holds the landmarks `0` and `3`, so the counter
`landmarkCount` starts at the table size `2` (line 98). Keyframe A observes landmark `3` (track `3`), keyframe B
observes landmark `0` only (batch `[0]`), and in keyframe C landmark `3` comes
back: it was seen before, its track `3` is absent from the previous batch, and
the update retires it with age `0`. The identifier it is given as "new name"
(lines 280-282) is the counter value `3`: the identifier the track had before
the retirement, issued to this landmark in keyframe A. -/
theorem retirement_returns_issued_id :
    (initialState [(0, (0, 0, 1)), (3, (0, 0, 2))]).landmarkCount = 2 ∧
    (reached 5 [(0, (0, 0, 1)), (3, (0, 0, 2))] [⟨3, []⟩, ⟨0, [3]⟩]).lmkIdToAge 3 ≠ none ∧
    (reached 5 [(0, (0, 0, 1)), (3, (0, 0, 2))] [⟨3, []⟩, ⟨0, [3]⟩]).lmkIdToNewLmkId 3 = 3 ∧
    (reached 5 [(0, (0, 0, 1)), (3, (0, 0, 2))] [⟨3, []⟩, ⟨0, [3]⟩]).lmkIdToNewLmkId 3 ∉
      ([0] : List LandmarkId) ∧
    retires 5 (reached 5 [(0, (0, 0, 1)), (3, (0, 0, 2))] [⟨3, []⟩, ⟨0, [3]⟩]) 3 [0] = true ∧
    returnedAge 5 (reached 5 [(0, (0, 0, 1)), (3, (0, 0, 2))] [⟨3, []⟩, ⟨0, [3]⟩]) 3 [0] = 0 ∧
    activeId 5 (reached 5 [(0, (0, 0, 1)), (3, (0, 0, 2))] [⟨3, []⟩, ⟨0, [3]⟩]) 3 [0] = 3 ∧
    activeId 5 (reached 5 [(0, (0, 0, 1)), (3, (0, 0, 2))] [⟨3, []⟩, ⟨0, [3]⟩]) 3 [0] ∈
      issuedIds 5 (initialState [(0, (0, 0, 1)), (3, (0, 0, 2))]) [⟨3, []⟩, ⟨0, [3]⟩] := by
  decide

/-- Ages along a continuously observed track. For a threshold `M ≥ 0` and a
landmark observed on consecutive keyframes, its track identifier being in the
previous batch each time, the age returned on the `n`-th observation is
`n mod (M + 1)`, the first track identifier is the landmark identifier, and
the retirement branch (which assigns the incremented counter as the track
identifier) is taken exactly when `n` is a positive multiple of `M + 1`; on
every other later observation the track identifier is the one returned by the
observation before. Whether the assigned counter value is an identifier that
was not in use depends on the numbering of the table. -/
theorem continuous_track_age (M : Int) (hM : 0 ≤ M) (lid : LandmarkId)
    (others : Nat → List Call) (prevs : Nat → List LandmarkId) (s0 : LifecycleState)
    (hfirst : s0.lmkIdToAge lid = none)
    (hothers : ∀ k, ∀ c ∈ others k, c.lid ≠ lid)
    (n : Nat)
    (hcont : ∀ k, 1 ≤ k → k ≤ n →
      (stateBeforeObservation M lid others prevs s0 k).lmkIdToNewLmkId lid ∈ prevs k) :
    returnedAge M (stateBeforeObservation M lid others prevs s0 n) lid (prevs n)
      = (n : Int) % (M + 1) ∧
    activeId M (stateBeforeObservation M lid others prevs s0 0) lid (prevs 0) = lid ∧
    (retires M (stateBeforeObservation M lid others prevs s0 n) lid (prevs n) = true ↔
      0 < n ∧ (M + 1) ∣ (n : Int)) ∧
    (retires M (stateBeforeObservation M lid others prevs s0 n) lid (prevs n) = true →
      activeId M (stateBeforeObservation M lid others prevs s0 n) lid (prevs n) =
        (stateBeforeObservation M lid others prevs s0 n).landmarkCount + 1) ∧
    (retires M (stateBeforeObservation M lid others prevs s0 n) lid (prevs n) = false →
      ∀ k, n = k + 1 →
        activeId M (stateBeforeObservation M lid others prevs s0 n) lid (prevs n) =
          activeId M (stateBeforeObservation M lid others prevs s0 k) lid (prevs k)) := by
  have hstep := continuous_observation_step M hM lid others prevs s0 hfirst hothers
  have hn := hstep n hcont
  have h0 := hstep 0 (fun k h1 h2 => absurd h1 (by omega))
  refine ⟨?_, ?_, hn.2, ?_, ?_⟩
  · simp [returnedAge, ageOf, hn.1]
  · have hs : (stateBeforeObservation M lid others prevs s0 0).lmkIdToAge lid = none := by
      show (runCalls M s0 (others 0)).lmkIdToAge lid = none
      rw [(runCalls_other M lid (others 0) s0 (hothers 0)).1, hfirst]
    have hr : retires M (stateBeforeObservation M lid others prevs s0 0) lid (prevs 0) = false := by
      cases h : retires M (stateBeforeObservation M lid others prevs s0 0) lid (prevs 0)
      · rfl
      · have := (h0.2.1 h).1
        omega
    exact (update_of_first_not_retires M _ lid (prevs 0) hs hr).2
  · intro hr
    exact (update_of_retires M _ lid (prevs n) hr).2.1
  · intro hr k hk
    subst hk
    have hk := hstep k (fun j h1 h2 => hcont j h1 (Nat.le_succ_of_le h2))
    have hs : (stateBeforeObservation M lid others prevs s0 (k + 1)).lmkIdToAge lid
        = some ((k : Int) % (M + 1)) := by
      show (runCalls M _ (others (k + 1))).lmkIdToAge lid = _
      rw [(runCalls_other M lid (others (k + 1)) _ (hothers (k + 1))).1]
      exact hk.1
    unfold activeId
    rw [(update_of_seen_not_retires M _ lid (prevs (k + 1)) _ hs hr).2]
    show (runCalls M _ (others (k + 1))).lmkIdToNewLmkId lid = _
    exact (runCalls_other M lid (others (k + 1)) _ (hothers (k + 1))).2

/-- Example of a continuously observed track on a table numbered `0, 1`:
`M = 1`, landmark `0` observed on four consecutive keyframes, the previous
batches being `[]`, `[0]`, `[0]`, `[3]`: the ages are `0, 1, 0, 1`, the track
identifiers `0, 0, 3, 3`, and the retirement branch is taken on the third
observation only. -/
theorem continuous_track_age_witness :
    (returnedAge 1 (stateBeforeObservation 1 0 (fun _ => []) examplePrevs
        (initialState denseRows) 2) 0 (examplePrevs 2) = ((2 : Nat) : Int) % (1 + 1) ∧
      activeId 1 (stateBeforeObservation 1 0 (fun _ => []) examplePrevs
        (initialState denseRows) 0) 0 (examplePrevs 0) = 0 ∧
      (retires 1 (stateBeforeObservation 1 0 (fun _ => []) examplePrevs
        (initialState denseRows) 2) 0 (examplePrevs 2) = true ↔
        0 < 2 ∧ ((1 : Int) + 1) ∣ ((2 : Nat) : Int)) ∧
      (retires 1 (stateBeforeObservation 1 0 (fun _ => []) examplePrevs
        (initialState denseRows) 2) 0 (examplePrevs 2) = true →
        activeId 1 (stateBeforeObservation 1 0 (fun _ => []) examplePrevs
          (initialState denseRows) 2) 0 (examplePrevs 2) =
          (stateBeforeObservation 1 0 (fun _ => []) examplePrevs
            (initialState denseRows) 2).landmarkCount + 1) ∧
      (retires 1 (stateBeforeObservation 1 0 (fun _ => []) examplePrevs
        (initialState denseRows) 2) 0 (examplePrevs 2) = false →
        ∀ k, 2 = k + 1 →
          activeId 1 (stateBeforeObservation 1 0 (fun _ => []) examplePrevs
            (initialState denseRows) 2) 0 (examplePrevs 2) =
          activeId 1 (stateBeforeObservation 1 0 (fun _ => []) examplePrevs
            (initialState denseRows) k) 0 (examplePrevs k))) ∧
    (List.range 4).map (fun n => returnedAge 1 (stateBeforeObservation 1 0 (fun _ => [])
        examplePrevs (initialState denseRows) n) 0 (examplePrevs n))
      = [0, 1, 0, 1] ∧
    (List.range 4).map (fun n => activeId 1 (stateBeforeObservation 1 0 (fun _ => [])
        examplePrevs (initialState denseRows) n) 0 (examplePrevs n))
      = [0, 0, 3, 3] ∧
    (List.range 4).map (fun n => retires 1 (stateBeforeObservation 1 0 (fun _ => [])
        examplePrevs (initialState denseRows) n) 0 (examplePrevs n))
      = [false, false, true, false] :=
  ⟨continuous_track_age 1 (by decide) 0 (fun _ => []) examplePrevs
      (initialState denseRows) rfl
      (fun _ c hc => absurd hc (List.not_mem_nil c)) 2
      (fun k h1 h2 => by interval_cases k <;> decide),
    by decide, by decide, by decide⟩

/-- C3. A continuously observed landmark is to receive a new track identifier
on every observation whose index is a positive multiple of
`maxFeatureAge_ + 1`, the ages being the index modulo `maxFeatureAge_ + 1`;
the code produces these ages but misses the new identifier on a table with an
identifier above its size. The table holds the landmarks `0` and `3`, so the
counter `landmarkCount` starts at the table size `2` (line 98), and
`maxFeatureAge_ = 1`. Landmark `3` is observed on five
consecutive keyframes, alone, its track identifier being in the previous batch
each time. The ages are `0, 1, 0, 1, 0` and the retirement branch is taken on
the third and the fifth observation, but the identifier that the third
observation assigns as "new name" (lines 280-282) is the counter value `3`,
the identifier the track had on the first two observations: the identifiers
are `3, 3, 3, 3, 4`, and the counter has advanced from `2` to `3`. Run from
the start of the keyframe loop, the third keyframe labels its measurement `3`
as the first two do. -/
theorem continuous_track_keeps_id_at_retirement :
    (initialState gapRows).landmarkCount = 2 ∧
    (∀ k ∈ [1, 2, 3, 4],
      (stateBeforeObservation 1 3 (fun _ => []) gapPrevs (initialState gapRows)
        k).lmkIdToNewLmkId 3 ∈ gapPrevs k) ∧
    (List.range 5).map (fun n => returnedAge 1 (stateBeforeObservation 1 3 (fun _ => [])
        gapPrevs (initialState gapRows) n) 3 (gapPrevs n))
      = [0, 1, 0, 1, 0] ∧
    (List.range 5).map (fun n => retires 1 (stateBeforeObservation 1 3 (fun _ => [])
        gapPrevs (initialState gapRows) n) 3 (gapPrevs n))
      = [false, false, true, false, true] ∧
    (List.range 5).map (fun n => activeId 1 (stateBeforeObservation 1 3 (fun _ => [])
        gapPrevs (initialState gapRows) n) 3 (gapPrevs n))
      = [3, 3, 3, 3, 4] ∧
    (List.range 5).map (fun n => (stateBeforeObservation 1 3 (fun _ => [])
        gapPrevs (initialState gapRows) n).landmarkCount)
      = [2, 2, 2, 3, 3] ∧
    activeId 1 (stateBeforeObservation 1 3 (fun _ => []) gapPrevs (initialState gapRows) 2)
        3 (gapPrevs 2) ∈
      issuedIds 1 (initialState gapRows) [⟨3, []⟩, ⟨3, [3]⟩] ∧
    runKeyframes (exampleSimulation gapRows 1) (RunState.initial gapRows)
        [exampleKeyframe [3], exampleKeyframe [3], exampleKeyframe [3], exampleKeyframe [3]] =
      Except.ok
        ({ lifecycle := reached 1 gapRows [⟨3, []⟩, ⟨3, [3]⟩, ⟨3, [3]⟩, ⟨3, [3]⟩]
           previousSmartStereoMeasurements := [measAt 3]
           didFirstOptimization := true },
         [{ trackedSmartStereoMeasurements := []
            newSmartStereoMeasurements := [measAt 3]
            trackedkeypoints_3d := []
            trackerLandmarksAge := [] },
          { trackedSmartStereoMeasurements := [measAt 3]
            newSmartStereoMeasurements := []
            trackedkeypoints_3d := [(0, 0, 2)]
            trackerLandmarksAge := [1] },
          { trackedSmartStereoMeasurements := []
            newSmartStereoMeasurements := [measAt 3]
            trackedkeypoints_3d := []
            trackerLandmarksAge := [] },
          { trackedSmartStereoMeasurements := [measAt 3]
            newSmartStereoMeasurements := []
            trackedkeypoints_3d := [(0, 0, 2)]
            trackerLandmarksAge := [1] }]) := by
  have hp : ∀ (rs : RunState) (kf : KeyframeInput Unit Unit) (lid : LandmarkId),
      ((landmarkPositions gapRows lid).1 = 0 ∧ (landmarkPositions gapRows lid).2.1 = 0) →
      ((exampleSimulation gapRows 1).env rs kf).project
        ((exampleSimulation gapRows 1).env rs kf).camLPose
        ((exampleSimulation gapRows 1).env rs kf).K
        (landmarkPositions ((exampleSimulation gapRows 1).env rs kf).rows lid)
        = (obsAt lid).fobs.px := by
    intro rs kf lid h
    simp [Simulation.env, exampleSimulation, identityCameraProject, obsAt, h.1, h.2]
  have hA : processKeyframe (exampleSimulation gapRows 1) (RunState.initial gapRows)
      (exampleKeyframe [3]) =
      Except.ok
        ({ lifecycle := reached 1 gapRows [⟨3, []⟩]
           previousSmartStereoMeasurements := [measAt 3]
           didFirstOptimization := true },
         { trackedSmartStereoMeasurements := []
           newSmartStereoMeasurements := [measAt 3]
           trackedkeypoints_3d := []
           trackerLandmarksAge := [] }) := by
    simp only [processKeyframe, exampleKeyframe, List.map, processObservations]
    rw [processObservation_exact _ _ _ (hp _ _ _ (by decide)) rfl]
    rw [if_pos (by decide)]
    rfl
  have hB : processKeyframe (exampleSimulation gapRows 1)
      { lifecycle := reached 1 gapRows [⟨3, []⟩]
        previousSmartStereoMeasurements := [measAt 3]
        didFirstOptimization := true }
      (exampleKeyframe [3]) =
      Except.ok
        ({ lifecycle := reached 1 gapRows [⟨3, []⟩, ⟨3, [3]⟩]
           previousSmartStereoMeasurements := [measAt 3]
           didFirstOptimization := true },
         { trackedSmartStereoMeasurements := [measAt 3]
           newSmartStereoMeasurements := []
           trackedkeypoints_3d := [(0, 0, 2)]
           trackerLandmarksAge := [1] }) := by
    simp only [processKeyframe, exampleKeyframe, List.map, processObservations]
    rw [processObservation_exact _ _ _ (hp _ _ _ (by decide)) rfl]
    rw [if_neg (by decide)]
    rfl
  have hC : processKeyframe (exampleSimulation gapRows 1)
      { lifecycle := reached 1 gapRows [⟨3, []⟩, ⟨3, [3]⟩]
        previousSmartStereoMeasurements := [measAt 3]
        didFirstOptimization := true }
      (exampleKeyframe [3]) =
      Except.ok
        ({ lifecycle := reached 1 gapRows [⟨3, []⟩, ⟨3, [3]⟩, ⟨3, [3]⟩]
           previousSmartStereoMeasurements := [measAt 3]
           didFirstOptimization := true },
         { trackedSmartStereoMeasurements := []
           newSmartStereoMeasurements := [measAt 3]
           trackedkeypoints_3d := []
           trackerLandmarksAge := [] }) := by
    simp only [processKeyframe, exampleKeyframe, List.map, processObservations]
    rw [processObservation_exact _ _ _ (hp _ _ _ (by decide)) rfl]
    rw [if_pos (by decide)]
    rfl
  have hD : processKeyframe (exampleSimulation gapRows 1)
      { lifecycle := reached 1 gapRows [⟨3, []⟩, ⟨3, [3]⟩, ⟨3, [3]⟩]
        previousSmartStereoMeasurements := [measAt 3]
        didFirstOptimization := true }
      (exampleKeyframe [3]) =
      Except.ok
        ({ lifecycle := reached 1 gapRows [⟨3, []⟩, ⟨3, [3]⟩, ⟨3, [3]⟩, ⟨3, [3]⟩]
           previousSmartStereoMeasurements := [measAt 3]
           didFirstOptimization := true },
         { trackedSmartStereoMeasurements := [measAt 3]
           newSmartStereoMeasurements := []
           trackedkeypoints_3d := [(0, 0, 2)]
           trackerLandmarksAge := [1] }) := by
    simp only [processKeyframe, exampleKeyframe, List.map, processObservations]
    rw [processObservation_exact _ _ _ (hp _ _ _ (by decide)) rfl]
    rw [if_neg (by decide)]
    rfl
  refine ⟨by decide, by decide, by decide, by decide, by decide, by decide, by decide, ?_⟩
  simp only [runKeyframes, hA, hB, hC, hD]

/-- Labels of one keyframe on tables numbered within their size. When no
observed landmark identifier exceeds the number of landmarks in the table and
no landmark is observed twice in the keyframe, the track identifiers of the
measurements produced for the keyframe are pairwise distinct, and an
identifier that a retirement replaced, during this keyframe or at any time
before, labels no landmark after the keyframe and none of the keyframe's
measurements. -/
theorem track_ids_distinct_and_not_reused {Pose Cal : Type} (env : KeyframeEnv Pose Cal)
    (calls : List Call) (os : List NoisyObservation) (s1 : LifecycleState)
    (lists : KeyframeLists)
    (hcalls : ∀ c ∈ calls, c.lid ≤ landmarkPositionsSize env.rows)
    (hobs : ∀ o ∈ os, o.fobs.lmkId ≤ landmarkPositionsSize env.rows)
    (hnodup : (os.map (fun o => o.fobs.lmkId)).Nodup)
    (hok : processObservations env
      (reached env.trackerParams.maxFeatureAge_ env.rows calls, KeyframeLists.empty) os
        = Except.ok (s1, lists)) :
    lists.trackIds.Nodup ∧
    ∀ (before after : List Call) (c : Call),
      calls ++ callsOf env.previousSmartStereoMeasurements os = before ++ c :: after →
      (reached env.trackerParams.maxFeatureAge_ env.rows before).lmkIdToAge c.lid ≠ none →
      retires env.trackerParams.maxFeatureAge_
        (reached env.trackerParams.maxFeatureAge_ env.rows before) c.lid
        c.previousKeyframeTrackIds = true →
      (∀ l, s1.lmkIdToAge l ≠ none → s1.lmkIdToNewLmkId l ≠
        (reached env.trackerParams.maxFeatureAge_ env.rows before).lmkIdToNewLmkId c.lid) ∧
      (reached env.trackerParams.maxFeatureAge_ env.rows before).lmkIdToNewLmkId c.lid ∉
        lists.trackIds := by
  have hB := processObservations_ok env os _ s1 KeyframeLists.empty lists [] hok hnodup
    (fun _ _ h => by cases h) (by simp [KeyframeLists.trackIds, KeyframeLists.empty])
  obtain ⟨hs1, hperm⟩ := hB
  rw [List.nil_append, List.map_map] at hperm
  have hall : ∀ c ∈ calls ++ callsOf env.previousSmartStereoMeasurements os,
      c.lid ≤ landmarkPositionsSize env.rows := by
    intro c hc
    rcases List.mem_append.1 hc with h | h
    · exact hcalls c h
    · unfold callsOf at h
      obtain ⟨o, ho, rfl⟩ := List.mem_map.1 h
      exact hobs o ho
  have hs1all : s1 = reached env.trackerParams.maxFeatureAge_ env.rows
      (calls ++ callsOf env.previousSmartStereoMeasurements os) := by
    rw [hs1]; unfold reached; rw [runCalls_append]
  have hinv : DenseInv (landmarkPositionsSize env.rows) s1 := by
    rw [hs1all]
    exact runCalls_denseInv _ _ _ _ (initialState_denseInv env.rows) hall
  have hseen : ∀ o ∈ os, s1.lmkIdToAge o.fobs.lmkId ≠ none := by
    intro o ho
    rw [hs1]
    exact runCalls_seen _ (callsOf env.previousSmartStereoMeasurements os) _
      ⟨o.fobs.lmkId, env.previousSmartStereoMeasurements.map Prod.fst⟩
      (List.mem_map_of_mem _ ho)
  refine ⟨?_, ?_⟩
  · refine hperm.nodup_iff.2 ?_
    have hinj : ∀ a ∈ os.map (fun o => o.fobs.lmkId), ∀ b ∈ os.map (fun o => o.fobs.lmkId),
        s1.lmkIdToNewLmkId a = s1.lmkIdToNewLmkId b → a = b := by
      intro a ha b hb hab
      obtain ⟨oa, hoa, rfl⟩ := List.mem_map.1 ha
      obtain ⟨ob, hob, rfl⟩ := List.mem_map.1 hb
      exact hinv.id_inj _ _ (hseen oa hoa) (hseen ob hob) hab
    have := List.Nodup.map_on hinj hnodup
    rwa [List.map_map] at this
  · intro before after c hsplit hcseen hr
    have hbefore : ∀ d ∈ before, d.lid ≤ landmarkPositionsSize env.rows := by
      intro d hd
      exact hall d (hsplit ▸ List.mem_append_left _ hd)
    have hafter : ∀ d ∈ after, d.lid ≤ landmarkPositionsSize env.rows := by
      intro d hd
      exact hall d (hsplit ▸ List.mem_append_right _ (List.mem_cons_of_mem _ hd))
    have hinvb : DenseInv (landmarkPositionsSize env.rows)
        (reached env.trackerParams.maxFeatureAge_ env.rows before) :=
      runCalls_denseInv _ _ _ _ (initialState_denseInv env.rows) hbefore
    have hret := runCalls_retired env.trackerParams.maxFeatureAge_ _ _ after _
      (retired_after_retirement _ _ _ c.lid c.previousKeyframeTrackIds hinvb hcseen hr) hafter
    have hs1eq : s1 = runCalls env.trackerParams.maxFeatureAge_
        (update env.trackerParams.maxFeatureAge_
          (reached env.trackerParams.maxFeatureAge_ env.rows before) c.lid
          c.previousKeyframeTrackIds) after := by
      rw [hs1all, hsplit]; unfold reached; rw [runCalls_append]; rfl
    rw [← hs1eq] at hret
    refine ⟨hret.1, ?_⟩
    intro hmem
    have hmem2 := hperm.mem_iff.1 hmem
    obtain ⟨o, ho, he⟩ := List.mem_map.1 hmem2
    exact hret.1 _ (hseen o ho) he

/-- Example of the labels of one keyframe on a table numbered `0, 1`: both
landmarks seen in a first keyframe, then observed again while only track `0`
was in the previous batch: landmark `1` is retired and gets track `3`,
landmark `0` keeps track `0`; the replaced identifier `1` is carried by no
measurement of the keyframe. -/
theorem track_ids_distinct_and_not_reused_witness :
    ((KeyframeLists.trackIds
        { trackedSmartStereoMeasurements := [measAt 0]
          newSmartStereoMeasurements := [measAt 3]
          trackedkeypoints_3d := [(0, 0, 1)]
          trackerLandmarksAge := [1] }).Nodup ∧
      ∀ (before after : List Call) (c : Call),
        [⟨0, []⟩, ⟨1, []⟩] ++ callsOf [measAt 0] [obsAt 1, obsAt 0] = before ++ c :: after →
        (reached 2 denseRows before).lmkIdToAge c.lid ≠ none →
        retires 2 (reached 2 denseRows before) c.lid c.previousKeyframeTrackIds = true →
        (∀ l, (reached 2 denseRows [⟨0, []⟩, ⟨1, []⟩, ⟨1, [0]⟩, ⟨0, [0]⟩]).lmkIdToAge l ≠ none →
          (reached 2 denseRows [⟨0, []⟩, ⟨1, []⟩, ⟨1, [0]⟩, ⟨0, [0]⟩]).lmkIdToNewLmkId l ≠
            (reached 2 denseRows before).lmkIdToNewLmkId c.lid) ∧
        (reached 2 denseRows before).lmkIdToNewLmkId c.lid ∉
          KeyframeLists.trackIds
            { trackedSmartStereoMeasurements := [measAt 0]
              newSmartStereoMeasurements := [measAt 3]
              trackedkeypoints_3d := [(0, 0, 1)]
              trackerLandmarksAge := [1] }) ∧
    (reached 2 denseRows [⟨0, []⟩, ⟨1, []⟩]).lmkIdToNewLmkId 1 = 1 ∧
    retires 2 (reached 2 denseRows [⟨0, []⟩, ⟨1, []⟩]) 1 [0] = true ∧
    (1 : LandmarkId) ∉
      KeyframeLists.trackIds
        { trackedSmartStereoMeasurements := [measAt 0]
          newSmartStereoMeasurements := [measAt 3]
          trackedkeypoints_3d := [(0, 0, 1)]
          trackerLandmarksAge := [1] } :=
  ⟨track_ids_distinct_and_not_reused (exampleEnv denseRows 2 [measAt 0])
      [⟨0, []⟩, ⟨1, []⟩] [obsAt 1, obsAt 0]
      (reached 2 denseRows [⟨0, []⟩, ⟨1, []⟩, ⟨1, [0]⟩, ⟨0, [0]⟩])
      { trackedSmartStereoMeasurements := [measAt 0]
        newSmartStereoMeasurements := [measAt 3]
        trackedkeypoints_3d := [(0, 0, 1)]
        trackerLandmarksAge := [1] }
      (by decide) (by decide) (by decide)
      (by
        simp only [processObservations]
        rw [processObservation_exact _ _ _ (exampleEnv_projects _ _ _ _ (by decide)) rfl]
        rw [if_pos (by decide)]
        simp only []
        rw [processObservation_exact _ _ _ (exampleEnv_projects _ _ _ _ (by decide)) rfl]
        rw [if_neg (by decide)]
        rfl),
    by decide, by decide, by decide⟩

/-- C4. The track identifiers of one keyframe are to be pairwise distinct, and
an identifier replaced by a retirement is never to be assigned again; the code
misses both on a table with identifiers above its size, run here from the
start of the keyframe loop. The table holds the landmarks `3` and `5`, so the
counter `landmarkCount` starts at the table size `2` (line 98), and
`maxFeatureAge_ = 2`, `maxFeaturesPerFrame_ = 20`. Keyframe A observes `3, 5`
(new tracks `3, 5`, batch `[3, 5]`), keyframe B observes `3` only (tracked,
batch `[3]`), keyframe C observes `5, 3`, each landmark once: landmark `5` is
not in the previous batch, is retired and is given as "new name" (lines
280-282) the counter value `3`, while landmark `3` is still tracked as `3`.
The two measurements of keyframe C carry the same track identifier. Two more
keyframes, D observing `3` (retired by age, track `4`, batch `[4]`) and E
observing `5`, retire landmark `5` again and give it the counter value `5`:
the identifier that its retirement in keyframe C replaced. -/
theorem two_landmarks_share_track_id :
    (∀ kf ∈ [exampleKeyframe [3, 5], exampleKeyframe [3], exampleKeyframe [5, 3]],
      (kf.fobs_t.map (fun o => o.fobs.lmkId)).Nodup) ∧
    runKeyframes (exampleSimulation sparseRows 2) (RunState.initial sparseRows)
        [exampleKeyframe [3, 5], exampleKeyframe [3], exampleKeyframe [5, 3]] =
      Except.ok
        ({ lifecycle := reached 2 sparseRows [⟨3, []⟩, ⟨5, []⟩, ⟨3, [3, 5]⟩, ⟨5, [3]⟩, ⟨3, [3]⟩]
           previousSmartStereoMeasurements := [measAt 3, measAt 3]
           didFirstOptimization := true },
         [{ trackedSmartStereoMeasurements := []
            newSmartStereoMeasurements := [measAt 3, measAt 5]
            trackedkeypoints_3d := []
            trackerLandmarksAge := [] },
          { trackedSmartStereoMeasurements := [measAt 3]
            newSmartStereoMeasurements := []
            trackedkeypoints_3d := [(0, 0, 1)]
            trackerLandmarksAge := [1] },
          { trackedSmartStereoMeasurements := [measAt 3]
            newSmartStereoMeasurements := [measAt 3]
            trackedkeypoints_3d := [(0, 0, 1)]
            trackerLandmarksAge := [2] }]) ∧
    ¬ (KeyframeLists.trackIds
        { trackedSmartStereoMeasurements := [measAt 3]
          newSmartStereoMeasurements := [measAt 3]
          trackedkeypoints_3d := [(0, 0, 1)]
          trackerLandmarksAge := [2] }).Nodup ∧
    (reached 2 sparseRows [⟨3, []⟩, ⟨5, []⟩, ⟨3, [3, 5]⟩]).lmkIdToNewLmkId 5 = 5 ∧
    retires 2 (reached 2 sparseRows [⟨3, []⟩, ⟨5, []⟩, ⟨3, [3, 5]⟩]) 5 [3] = true ∧
    activeId 2 (reached 2 sparseRows [⟨3, []⟩, ⟨5, []⟩, ⟨3, [3, 5]⟩, ⟨5, [3]⟩, ⟨3, [3]⟩])
      3 [3, 3] = 4 ∧
    retires 2 (reached 2 sparseRows
      [⟨3, []⟩, ⟨5, []⟩, ⟨3, [3, 5]⟩, ⟨5, [3]⟩, ⟨3, [3]⟩, ⟨3, [3, 3]⟩]) 5 [4] = true ∧
    activeId 2 (reached 2 sparseRows
      [⟨3, []⟩, ⟨5, []⟩, ⟨3, [3, 5]⟩, ⟨5, [3]⟩, ⟨3, [3]⟩, ⟨3, [3, 3]⟩]) 5 [4] = 5 := by
  have hp : ∀ (rs : RunState) (kf : KeyframeInput Unit Unit) (lid : LandmarkId),
      ((landmarkPositions sparseRows lid).1 = 0 ∧ (landmarkPositions sparseRows lid).2.1 = 0) →
      ((exampleSimulation sparseRows 2).env rs kf).project
        ((exampleSimulation sparseRows 2).env rs kf).camLPose
        ((exampleSimulation sparseRows 2).env rs kf).K
        (landmarkPositions ((exampleSimulation sparseRows 2).env rs kf).rows lid)
        = (obsAt lid).fobs.px := by
    intro rs kf lid h
    simp [Simulation.env, exampleSimulation, identityCameraProject, obsAt, h.1, h.2]
  have hA : processKeyframe (exampleSimulation sparseRows 2) (RunState.initial sparseRows)
      (exampleKeyframe [3, 5]) =
      Except.ok
        ({ lifecycle := reached 2 sparseRows [⟨3, []⟩, ⟨5, []⟩]
           previousSmartStereoMeasurements := [measAt 3, measAt 5]
           didFirstOptimization := true },
         { trackedSmartStereoMeasurements := []
           newSmartStereoMeasurements := [measAt 3, measAt 5]
           trackedkeypoints_3d := []
           trackerLandmarksAge := [] }) := by
    simp only [processKeyframe, exampleKeyframe, List.map, processObservations]
    rw [processObservation_exact _ _ _ (hp _ _ _ (by decide)) rfl]
    rw [if_pos (by decide)]
    simp only []
    rw [processObservation_exact _ _ _ (hp _ _ _ (by decide)) rfl]
    rw [if_pos (by decide)]
    rfl
  have hB : processKeyframe (exampleSimulation sparseRows 2)
      { lifecycle := reached 2 sparseRows [⟨3, []⟩, ⟨5, []⟩]
        previousSmartStereoMeasurements := [measAt 3, measAt 5]
        didFirstOptimization := true }
      (exampleKeyframe [3]) =
      Except.ok
        ({ lifecycle := reached 2 sparseRows [⟨3, []⟩, ⟨5, []⟩, ⟨3, [3, 5]⟩]
           previousSmartStereoMeasurements := [measAt 3]
           didFirstOptimization := true },
         { trackedSmartStereoMeasurements := [measAt 3]
           newSmartStereoMeasurements := []
           trackedkeypoints_3d := [(0, 0, 1)]
           trackerLandmarksAge := [1] }) := by
    simp only [processKeyframe, exampleKeyframe, List.map, processObservations]
    rw [processObservation_exact _ _ _ (hp _ _ _ (by decide)) rfl]
    rw [if_neg (by decide)]
    rfl
  have hC : processKeyframe (exampleSimulation sparseRows 2)
      { lifecycle := reached 2 sparseRows [⟨3, []⟩, ⟨5, []⟩, ⟨3, [3, 5]⟩]
        previousSmartStereoMeasurements := [measAt 3]
        didFirstOptimization := true }
      (exampleKeyframe [5, 3]) =
      Except.ok
        ({ lifecycle :=
             reached 2 sparseRows [⟨3, []⟩, ⟨5, []⟩, ⟨3, [3, 5]⟩, ⟨5, [3]⟩, ⟨3, [3]⟩]
           previousSmartStereoMeasurements := [measAt 3, measAt 3]
           didFirstOptimization := true },
         { trackedSmartStereoMeasurements := [measAt 3]
           newSmartStereoMeasurements := [measAt 3]
           trackedkeypoints_3d := [(0, 0, 1)]
           trackerLandmarksAge := [2] }) := by
    simp only [processKeyframe, exampleKeyframe, List.map, processObservations]
    rw [processObservation_exact _ _ _ (hp _ _ _ (by decide)) rfl]
    rw [if_pos (by decide)]
    simp only []
    rw [processObservation_exact _ _ _ (hp _ _ _ (by decide)) rfl]
    rw [if_neg (by decide)]
    rfl
  refine ⟨by decide, ?_, by decide, by decide, by decide, by decide, by decide, by decide⟩
  simp only [runKeyframes, hA, hB, hC]

/-! ## Measurement synthesis: main results -/

/-- C5, as amended. With noise disabled, every accepted triple returns the
supplied observed pixel exactly as left-U and V, with right-U missing; that
pixel lies within squared distance `1e-4` of the reprojected pixel, and it is
the reprojected pixel only when the supplied pixel already equals it. -/
theorem synthesize_noise_disabled {Pose Cal : Type} (project : Pose → Cal → Vector3 → Point2)
    (camLPose : Pose) (K : Cal) (lposition : Vector3) (actual_px : Point2) (noiseU noiseV : ℚ)
    (m : StereoPoint2)
    (h : synthesize project camLPose K lposition actual_px false noiseU noiseV = Except.ok m) :
    m.uL = actual_px.1 ∧ m.v = actual_px.2 ∧ m.uR = none ∧
    squaredNorm ((project camLPose K lposition).1 - actual_px.1,
      (project camLPose K lposition).2 - actual_px.2) ≤ (1 / 100) ^ 2 ∧
    ((m.uL, m.v) = project camLPose K lposition ↔ actual_px = project camLPose K lposition) := by
  unfold synthesize at h
  simp only [Bool.false_eq_true, if_false] at h
  by_cases hmis : pixelProjectionMismatch (project camLPose K lposition) actual_px = true
  · rw [if_pos hmis] at h
    cases h
  · rw [if_neg hmis] at h
    simp only [Except.ok.injEq] at h
    subst h
    refine ⟨rfl, rfl, rfl, ?_, ?_⟩
    · unfold pixelProjectionMismatch at hmis
      simpa using hmis
    · exact Iff.rfl

/-- Witness for C5 as amended: a landmark at depth `1` on the optical axis
projects to `(0, 0)`; the supplied pixel `(1/200, 0)` is accepted and returned. -/
theorem synthesize_noise_disabled_witness :
    ({ uL := 1 / 200, uR := none, v := 0 } : StereoPoint2).uL = ((1 / 200, 0) : Point2).1 ∧
    ({ uL := 1 / 200, uR := none, v := 0 } : StereoPoint2).v = ((1 / 200, 0) : Point2).2 ∧
    ({ uL := 1 / 200, uR := none, v := 0 } : StereoPoint2).uR = none ∧
    squaredNorm ((identityCameraProject () () (0, 0, 1)).1 - ((1 / 200, 0) : Point2).1,
      (identityCameraProject () () (0, 0, 1)).2 - ((1 / 200, 0) : Point2).2) ≤ (1 / 100) ^ 2 ∧
    ((({ uL := 1 / 200, uR := none, v := 0 } : StereoPoint2).uL,
      ({ uL := 1 / 200, uR := none, v := 0 } : StereoPoint2).v) =
        identityCameraProject () () (0, 0, 1) ↔
      ((1 / 200, 0) : Point2) = identityCameraProject () () (0, 0, 1)) :=
  synthesize_noise_disabled identityCameraProject () () (0, 0, 1) (1 / 200, 0) 0 0
    { uL := 1 / 200, uR := none, v := 0 }
    (by
      simp only [synthesize, pixelProjectionMismatch, squaredNorm, identityCameraProject]
      norm_num)

/-- Counterexample to C5 as stated: with noise disabled the triple (camera at
the origin, landmark `(0, 0, 1)`, supplied pixel `(1/200, 0)`) is accepted; the
reprojected pixel is `(0, 0)` but the measurement returned is `(1/200, 0)`. -/
theorem synthesize_returns_supplied_pixel_counterexample :
    synthesize identityCameraProject () () (0, 0, 1) (1 / 200, 0) false 0 0 =
      Except.ok { uL := 1 / 200, uR := none, v := 0 } ∧
    identityCameraProject () () (0, 0, 1) = (0, 0) ∧
    ((({ uL := 1 / 200, uR := none, v := 0 } : StereoPoint2).uL,
      ({ uL := 1 / 200, uR := none, v := 0 } : StereoPoint2).v) ≠
        identityCameraProject () () (0, 0, 1)) := by
  refine ⟨?_, ?_, ?_⟩
  · simp only [synthesize, pixelProjectionMismatch, squaredNorm, identityCameraProject]
    norm_num
  · simp [identityCameraProject]
  · simp [identityCameraProject]

/-- C6. The synthesis fails with the pixel-projection-mismatch error exactly
when the Euclidean distance between the reprojected and the supplied pixel is
strictly greater than `1/100`, that is when the squared distance exceeds
`1/10000`; at a distance of `1/100` or less it returns a measurement; and the
outcome (failure or success) is the same whatever the noise switch and the
noise samples are. -/
theorem synthesize_fails_iff_far {Pose Cal : Type} (project : Pose → Cal → Vector3 → Point2)
    (camLPose : Pose) (K : Cal) (lposition : Vector3) (actual_px : Point2)
    (addNoise : Bool) (noiseU noiseV : ℚ) :
    (synthesize project camLPose K lposition actual_px addNoise noiseU noiseV
        = Except.error SimError.pixelProjectionMismatch ↔
      (1 / 100 : ℝ) < Real.sqrt
        ((((project camLPose K lposition).1 - actual_px.1 : ℚ) : ℝ) ^ 2 +
          (((project camLPose K lposition).2 - actual_px.2 : ℚ) : ℝ) ^ 2)) ∧
    (synthesize project camLPose K lposition actual_px addNoise noiseU noiseV
        = Except.error SimError.pixelProjectionMismatch ↔
      (1 / 10000 : ℚ) < ((project camLPose K lposition).1 - actual_px.1) ^ 2 +
          ((project camLPose K lposition).2 - actual_px.2) ^ 2) ∧
    ((∃ m, synthesize project camLPose K lposition actual_px addNoise noiseU noiseV
        = Except.ok m) ↔
      Real.sqrt
        ((((project camLPose K lposition).1 - actual_px.1 : ℚ) : ℝ) ^ 2 +
          (((project camLPose K lposition).2 - actual_px.2 : ℚ) : ℝ) ^ 2) ≤ (1 / 100 : ℝ)) ∧
    (∀ (addNoise2 : Bool) (noiseU2 noiseV2 : ℚ) (e : SimError),
      synthesize project camLPose K lposition actual_px addNoise noiseU noiseV = Except.error e ↔
      synthesize project camLPose K lposition actual_px addNoise2 noiseU2 noiseV2
        = Except.error e) := by
  set dx : ℚ := (project camLPose K lposition).1 - actual_px.1 with hdx
  set dy : ℚ := (project camLPose K lposition).2 - actual_px.2 with hdy
  have hq : pixelProjectionMismatch (project camLPose K lposition) actual_px = true ↔
      (1 / 10000 : ℚ) < dx ^ 2 + dy ^ 2 := by
    unfold pixelProjectionMismatch squaredNorm
    simp only [decide_eq_true_eq, gt_iff_lt, ← hdx, ← hdy]
    have e1 : ((1 : ℚ) / 100) ^ 2 = 1 / 10000 := by norm_num
    rw [e1, pow_two, pow_two]
  have hr : (1 / 100 : ℝ) < Real.sqrt ((dx : ℝ) ^ 2 + (dy : ℝ) ^ 2) ↔
      (1 / 10000 : ℚ) < dx ^ 2 + dy ^ 2 := by
    rw [Real.lt_sqrt (by norm_num)]
    have e2 : ((1 : ℝ) / 100) ^ 2 = ((1 / 10000 : ℚ) : ℝ) := by norm_num
    rw [e2]
    have e3 : (dx : ℝ) ^ 2 + (dy : ℝ) ^ 2 = ((dx ^ 2 + dy ^ 2 : ℚ) : ℝ) := by push_cast; ring
    rw [e3, Rat.cast_lt]
  have hs : synthesize project camLPose K lposition actual_px addNoise noiseU noiseV
      = Except.error SimError.pixelProjectionMismatch ↔
      pixelProjectionMismatch (project camLPose K lposition) actual_px = true := by
    unfold synthesize
    split_ifs with h <;> simp [h]
  refine ⟨hs.trans (hq.trans hr.symm), hs.trans hq, ?_, ?_⟩
  · rw [← not_lt, hr, ← hq]
    unfold synthesize
    split_ifs with h <;> simp [h]
  · intro addNoise2 noiseU2 noiseV2 e
    unfold synthesize
    split_ifs with h <;> simp

/-! ## Selection dispatcher: main results -/

/-- C7, as amended. For every tracked count, candidate list, configuration and
warm or cold state, and for every external selector that returns at most as
many indices as the count it is asked for, the number of new-feature
candidates kept by the dispatcher is at most
`needed = max (maxFeaturesPerFrame - trackedCount) 0`. -/
theorem select_length_le_needed {S : Type} (params : VioFrontEndParams)
    (didFirstOptimization : Bool)
    (shuffle : Nat → List SmartStereoMeasurement → List SmartStereoMeasurement)
    (seedShuffle : Nat) (selector : SelectorCall S → List Nat)
    (poses : List S) (tracked : List Vector3) (ages : List Int)
    (new out : List SmartStereoMeasurement)
    (hsel : ∀ call : SelectorCall S, (selector call).length ≤ call.need_nr_features.toNat)
    (h : select params didFirstOptimization shuffle seedShuffle selector poses tracked ages new
      = Except.ok out) :
    (out.length : Int) ≤ need_nr_features params tracked ∧
    need_nr_features params tracked = max (params.maxFeaturesPerFrame_ - (tracked.length : Int)) 0
    := by
  refine ⟨?_, rfl⟩
  have hnn := need_nr_features_nonneg params tracked
  unfold select at h
  split_ifs at h with h1 h2 h3
  · simp only [Except.ok.injEq] at h
    subst h
    rw [vectorResize_length]
    exact le_of_eq (Int.toNat_of_nonneg hnn)
  · rw [repopulate_length _ _ out h]
    have h4 := hsel (selectorCall params poses tracked ages new)
    have h5 : (selectorCall params poses tracked ages new).need_nr_features
        = need_nr_features params tracked := rfl
    rw [h5] at h4
    have h6 := Int.toNat_of_nonneg hnn
    omega
  · simp only [Except.ok.injEq] at h
    subst h
    exact not_lt.1 h1

/-- Witness for C7 as amended: warm LOGDET run, budget `1`, two candidates, a
selector that returns the first `need_nr_features` indices. -/
theorem select_length_le_needed_witness :
    (([measAt 7] : List SmartStereoMeasurement).length : Int) ≤
      need_nr_features ⟨3, 1, FeatureSelectionCriterion.LOGDET⟩ [] ∧
    need_nr_features ⟨3, 1, FeatureSelectionCriterion.LOGDET⟩ [] =
      max ((1 : Int) - (([] : List Vector3).length : Int)) 0 :=
  select_length_le_needed (S := Unit) ⟨3, 1, FeatureSelectionCriterion.LOGDET⟩ true
    (fun _ l => l) 0 (fun call => List.range call.need_nr_features.toNat) [] [] []
    [measAt 7, measAt 8] [measAt 7]
    (fun _ => le_of_eq (List.length_range _))
    rfl

/-- Counterexample to C7 as stated: warm LOGDET run with budget `1` (no tracked
point, `maxFeaturesPerFrame_ = 1`) and two candidates; the selector returns the
indices `0, 1` and the dispatcher keeps both candidates. -/
theorem select_keeps_more_than_needed_counterexample :
    select (S := Unit) ⟨3, 1, FeatureSelectionCriterion.LOGDET⟩ true (fun _ l => l) 0
      (fun _ => [0, 1]) [] [] [] [measAt 7, measAt 8] = Except.ok [measAt 7, measAt 8] ∧
    need_nr_features ⟨3, 1, FeatureSelectionCriterion.LOGDET⟩ [] = 1 ∧
    ¬ ((([measAt 7, measAt 8] : List SmartStereoMeasurement).length : Int) ≤
      need_nr_features ⟨3, 1, FeatureSelectionCriterion.LOGDET⟩ []) := by
  refine ⟨rfl, by decide, by decide⟩

/-- C8. When the number of new candidates is at most
`needed = max (maxFeaturesPerFrame - trackedCount) 0`, the dispatcher returns
the candidate list itself, for every strategy, warm or cold state, shuffle,
seed and selector: neither the shuffle nor the selector has any influence. -/
theorem select_unchanged_when_within_budget {S : Type} (params : VioFrontEndParams)
    (didFirstOptimization : Bool)
    (shuffle : Nat → List SmartStereoMeasurement → List SmartStereoMeasurement)
    (seedShuffle : Nat) (selector : SelectorCall S → List Nat)
    (poses : List S) (tracked : List Vector3) (ages : List Int)
    (new : List SmartStereoMeasurement)
    (h : (new.length : Int) ≤ max (params.maxFeaturesPerFrame_ - (tracked.length : Int)) 0) :
    select params didFirstOptimization shuffle seedShuffle selector poses tracked ages new
      = Except.ok new := by
  unfold select
  rw [if_neg]
  exact not_lt.2 h

/-- Witness for C8: `maxFeaturesPerFrame = 20`, `15` tracked points and `3`
candidates give `needed = 5`, and the `3` candidates come back unchanged, here
with a reversing shuffle and a selector that would pick index `0` only. -/
theorem select_unchanged_when_within_budget_witness :
    need_nr_features ⟨3, 20, FeatureSelectionCriterion.LOGDET⟩ (List.replicate 15 (0, 0, 1)) = 5 ∧
    select (S := Unit) ⟨3, 20, FeatureSelectionCriterion.LOGDET⟩ true (fun _ l => l.reverse) 0
      (fun _ => [0]) [] (List.replicate 15 (0, 0, 1)) (List.replicate 15 1)
      [measAt 7, measAt 8, measAt 9] = Except.ok [measAt 7, measAt 8, measAt 9] :=
  ⟨by decide,
    select_unchanged_when_within_budget (S := Unit) ⟨3, 20, FeatureSelectionCriterion.LOGDET⟩
      true (fun _ l => l.reverse) 0 (fun _ => [0]) [] (List.replicate 15 (0, 0, 1))
      (List.replicate 15 1) [measAt 7, measAt 8, measAt 9] (by decide)⟩

/-- C9. With more candidates than needed, and the QUALITY strategy or no
estimator update yet, for every seed whose shuffle permutes the candidates the
dispatcher returns the first `needed` elements of the shuffled list: exactly
`needed` candidates, each from the original list and none more often than it
occurs there (the result is a sub-permutation of the candidate list); the
result does not depend on the selector. -/
theorem select_random_branch {S : Type} (params : VioFrontEndParams)
    (didFirstOptimization : Bool)
    (shuffle : Nat → List SmartStereoMeasurement → List SmartStereoMeasurement)
    (seedShuffle : Nat) (selector : SelectorCall S → List Nat)
    (poses : List S) (tracked : List Vector3) (ages : List Int)
    (new : List SmartStereoMeasurement)
    (hmore : need_nr_features params tracked < (new.length : Int))
    (hbranch : params.featureSelectionCriterion_ = FeatureSelectionCriterion.QUALITY ∨
      didFirstOptimization = false)
    (hperm : (shuffle seedShuffle new).Perm new) :
    select params didFirstOptimization shuffle seedShuffle selector poses tracked ages new
      = Except.ok ((shuffle seedShuffle new).take (need_nr_features params tracked).toNat) ∧
    ((((shuffle seedShuffle new).take (need_nr_features params tracked).toNat).length : Int)
      = need_nr_features params tracked) ∧
    (∀ m ∈ (shuffle seedShuffle new).take (need_nr_features params tracked).toNat, m ∈ new) ∧
    ((shuffle seedShuffle new).take (need_nr_features params tracked).toNat).Subperm new ∧
    (∀ (selector2 : SelectorCall S → List Nat) (poses2 : List S),
      select params didFirstOptimization shuffle seedShuffle selector2 poses2 tracked ages new
        = select params didFirstOptimization shuffle seedShuffle selector poses tracked ages
          new) := by
  have hnn := need_nr_features_nonneg params tracked
  have hlen : (need_nr_features params tracked).toNat ≤ (shuffle seedShuffle new).length := by
    rw [hperm.length_eq]
    have := Int.toNat_of_nonneg hnn
    omega
  have hsub : ((shuffle seedShuffle new).take (need_nr_features params tracked).toNat).Subperm
      new :=
    ((List.take_sublist _ _).subperm).trans hperm.subperm
  have hsel : ∀ (sel : SelectorCall S → List Nat) (ps : List S),
      select params didFirstOptimization shuffle seedShuffle sel ps tracked ages new
        = Except.ok ((shuffle seedShuffle new).take (need_nr_features params tracked).toNat) := by
    intro sel ps
    unfold select
    rw [if_pos hmore, if_pos hbranch, vectorResize_of_le _ _ hlen]
  refine ⟨hsel selector poses, ?_, ?_, ?_, ?_⟩
  · rw [List.length_take, Nat.min_eq_left hlen]
    exact Int.toNat_of_nonneg hnn
  · intro m hm
    exact hsub.subset hm
  · exact hsub
  · intro selector2 poses2
    rw [hsel selector2 poses2, hsel selector poses]

/-- Witness for C9: cold start, ten candidates and a budget of four; with the
rotation by the seed as the shuffle, exactly four of the original candidates
are returned. -/
theorem select_random_branch_witness :
    select (S := Unit) ⟨3, 4, FeatureSelectionCriterion.LOGDET⟩ false
      (fun seed l => l.rotate seed) 3 (fun _ => []) [] [] []
      ((List.range 10).map (fun i => measAt (i : Int)))
      = Except.ok [measAt 3, measAt 4, measAt 5, measAt 6] ∧
    need_nr_features ⟨3, 4, FeatureSelectionCriterion.LOGDET⟩ [] = 4 ∧
    ((([measAt 3, measAt 4, measAt 5, measAt 6] : List SmartStereoMeasurement).length : Int)
      = 4) ∧
    (∀ m ∈ ([measAt 3, measAt 4, measAt 5, measAt 6] : List SmartStereoMeasurement),
      m ∈ (List.range 10).map (fun i => measAt (i : Int))) :=
  ⟨(select_random_branch (S := Unit) ⟨3, 4, FeatureSelectionCriterion.LOGDET⟩ false
      (fun seed l => l.rotate seed) 3 (fun _ => []) [] [] []
      ((List.range 10).map (fun i => measAt (i : Int))) (by decide) (Or.inr rfl)
      (List.rotate_perm _ 3)).1,
    by decide, by decide,
    (select_random_branch (S := Unit) ⟨3, 4, FeatureSelectionCriterion.LOGDET⟩ false
      (fun seed l => l.rotate seed) 3 (fun _ => []) [] [] []
      ((List.range 10).map (fun i => measAt (i : Int))) (by decide) (Or.inr rfl)
      (List.rotate_perm _ 3)).2.2.1⟩

/-- C10. In the warm information-based branch (more candidates than needed,
strategy other than QUALITY, an estimator update done, as many tracked ages as
tracked points) the dispatcher calls the selector on `selectorCall`; when
every returned index is inside the candidate list the measurements kept are
the candidates at those indices, in the order of the index list, as many as
there are indices; when some returned index is outside the candidate list the
dispatcher throws the out-of-range error. -/
theorem select_information_branch {S : Type} (params : VioFrontEndParams)
    (shuffle : Nat → List SmartStereoMeasurement → List SmartStereoMeasurement)
    (seedShuffle : Nat) (selector : SelectorCall S → List Nat)
    (poses : List S) (tracked : List Vector3) (ages : List Int)
    (new : List SmartStereoMeasurement)
    (hmore : need_nr_features params tracked < (new.length : Int))
    (hcrit : params.featureSelectionCriterion_ ≠ FeatureSelectionCriterion.QUALITY)
    (hlen : tracked.length = ages.length) :
    ((∀ i ∈ selector (selectorCall params poses tracked ages new), i < new.length) →
      ∃ out, select params true shuffle seedShuffle selector poses tracked ages new
          = Except.ok out ∧
        out.map some =
          (selector (selectorCall params poses tracked ages new)).map (fun i => new[i]?) ∧
        out.length = (selector (selectorCall params poses tracked ages new)).length) ∧
    ((∃ i ∈ selector (selectorCall params poses tracked ages new), new.length ≤ i) →
      select params true shuffle seedShuffle selector poses tracked ages new
        = Except.error SimError.outOfRange) := by
  have hsel : select params true shuffle seedShuffle selector poses tracked ages new
      = repopulate new (selector (selectorCall params poses tracked ages new)) := by
    unfold select
    rw [if_pos hmore, if_neg (by simp [hcrit]), if_neg (by simp [keypointLife, hlen])]
  rw [hsel]
  refine ⟨?_, repopulate_error new _⟩
  intro hin
  obtain ⟨out, hout, hmap⟩ := repopulate_ok new _ hin
  exact ⟨out, hout, hmap, repopulate_length new _ out hout⟩

/-- Witness for C10: warm LOGDET run with budget `3` and four candidates; the
selector returns the indices `2, 0`, fewer than the budget, and the dispatcher
keeps the third and the first candidate, in that order, without padding; with
the indices `2, 4` it throws. -/
theorem select_information_branch_witness :
    (((∀ i ∈ (fun _ => [2, 0] : SelectorCall Unit → List Nat)
          (selectorCall ⟨3, 3, FeatureSelectionCriterion.LOGDET⟩ [] [] []
            [measAt 6, measAt 7, measAt 8, measAt 9]),
        i < [measAt 6, measAt 7, measAt 8, measAt 9].length) →
      ∃ out, select (S := Unit) ⟨3, 3, FeatureSelectionCriterion.LOGDET⟩ true (fun _ l => l) 0
          (fun _ => [2, 0]) [] [] [] [measAt 6, measAt 7, measAt 8, measAt 9] = Except.ok out ∧
        out.map some =
          ((fun _ => [2, 0] : SelectorCall Unit → List Nat)
            (selectorCall ⟨3, 3, FeatureSelectionCriterion.LOGDET⟩ [] [] []
              [measAt 6, measAt 7, measAt 8, measAt 9])).map
            (fun i => [measAt 6, measAt 7, measAt 8, measAt 9][i]?) ∧
        out.length =
          ((fun _ => [2, 0] : SelectorCall Unit → List Nat)
            (selectorCall ⟨3, 3, FeatureSelectionCriterion.LOGDET⟩ [] [] []
              [measAt 6, measAt 7, measAt 8, measAt 9])).length) ∧
    ((∃ i ∈ (fun _ => [2, 0] : SelectorCall Unit → List Nat)
          (selectorCall ⟨3, 3, FeatureSelectionCriterion.LOGDET⟩ [] [] []
            [measAt 6, measAt 7, measAt 8, measAt 9]),
        [measAt 6, measAt 7, measAt 8, measAt 9].length ≤ i) →
      select (S := Unit) ⟨3, 3, FeatureSelectionCriterion.LOGDET⟩ true (fun _ l => l) 0
        (fun _ => [2, 0]) [] [] [] [measAt 6, measAt 7, measAt 8, measAt 9]
        = Except.error SimError.outOfRange)) ∧
    select (S := Unit) ⟨3, 3, FeatureSelectionCriterion.LOGDET⟩ true (fun _ l => l) 0
      (fun _ => [2, 0]) [] [] [] [measAt 6, measAt 7, measAt 8, measAt 9]
      = Except.ok [measAt 8, measAt 6] ∧
    select (S := Unit) ⟨3, 3, FeatureSelectionCriterion.LOGDET⟩ true (fun _ l => l) 0
      (fun _ => [2, 4]) [] [] [] [measAt 6, measAt 7, measAt 8, measAt 9]
      = Except.error SimError.outOfRange :=
  ⟨select_information_branch (S := Unit) ⟨3, 3, FeatureSelectionCriterion.LOGDET⟩ (fun _ l => l)
      0 (fun _ => [2, 0]) [] [] [] [measAt 6, measAt 7, measAt 8, measAt 9]
      (by decide) (by decide) rfl,
    rfl, rfl⟩

/-! ## Selection context: main results -/

/-- C11. For a horizon `h ≥ 0` and a keyframe interval with a positive `double`
value, both finite, whose quotient is below `2 ^ 52`: the horizon step count
`n` is `round(q)`, the integer within a half of `q` with the half itself going
up, where `q` is the `double` quotient `h / dt` of line 338, that is a `double`
nearest to the exact quotient `x` of the two `double` values (the one with the
even significand when `x` lies half way between two); `n` is therefore the
rounding of `x` or the integer just above it; the predicted-pose sequence put
in the selector call has exactly `n + 1` entries; entry `kk` (for
`0 ≤ kk ≤ n`) is stamped with the seconds value of the nanosecond time
`timestamp_k + SecToNsec(kk * dt)`, which is the keyframe time plus `kk`
intervals when the two conversions are exact; and when `n = 0` the sequence is
the single entry of step `0`, the predicted pose at the current keyframe time
(given that `SecToNsec` maps `0` to `0`). -/
theorem predicted_poses_count_and_stamps {P : Type} [Group P] (SecToNsec : ℚ → Int)
    (NsecToSec : Int → ℚ) (h dt : ℚ) (t_k : Int) (gt : Int → P) (est W : P)
    (params : VioFrontEndParams) (tracked : List Vector3) (ages : List Int)
    (new : List SmartStereoMeasurement) (hh : 0 ≤ h ∧ h < 2 ^ 1023)
    (hdt : 0 < toDouble dt ∧ dt < 2 ^ 1023) (hq : toDouble h / toDouble dt < 2 ^ 52) :
    ((nrKfInHorizon h dt : ℚ) ≤ toDouble (toDouble h / toDouble dt) + 1 / 2 ∧
      toDouble (toDouble h / toDouble dt) + 1 / 2 < (nrKfInHorizon h dt : ℚ) + 1) ∧
    (∀ x q : ℚ, x = toDouble h / toDouble dt → q = toDouble x → x ≠ 0 →
      ∃ k e : Int, e = max (Int.log 2 |x|) (-1022) - 52 ∧ q = (k : ℚ) * 2 ^ e ∧
        |k| ≤ 2 ^ 53 ∧ |q - x| ≤ 2 ^ e / 2 ∧ (|q - x| = 2 ^ e / 2 → k % 2 = 0)) ∧
    (cRound (toDouble h / toDouble dt) ≤ (nrKfInHorizon h dt : Int) ∧
      (nrKfInHorizon h dt : Int) ≤ cRound (toDouble h / toDouble dt) + 1) ∧
    (selectorCall params (posesAtFutureKeyframes SecToNsec NsecToSec h dt t_k gt est W)
      tracked ages new).posesAtFutureKeyframes.length = nrKfInHorizon h dt + 1 ∧
    (∀ kk : Nat, kk ≤ nrKfInHorizon h dt →
      ∃ e, (selectorCall params (posesAtFutureKeyframes SecToNsec NsecToSec h dt t_k gt est W)
          tracked ages new).posesAtFutureKeyframes[kk]? = some e ∧
        e.timestampInSec =
          NsecToSec (t_k + SecToNsec (toDouble ((kk : ℚ) * toDouble dt))) ∧
        ((∀ n : Int, NsecToSec n = (n : ℚ) / 1000000000) →
          ((SecToNsec (toDouble ((kk : ℚ) * toDouble dt)) : Int) : ℚ)
            = (kk : ℚ) * dt * 1000000000 →
          e.timestampInSec = NsecToSec t_k + (kk : ℚ) * dt)) ∧
    (nrKfInHorizon h dt = 0 →
      (selectorCall params (posesAtFutureKeyframes SecToNsec NsecToSec h dt t_k gt est W)
        tracked ages new).posesAtFutureKeyframes =
        [{ pose := est * (W⁻¹ * gt (t_k + SecToNsec 0))
           timestampInSec := NsecToSec (t_k + SecToNsec 0) }] ∧
      (SecToNsec 0 = 0 →
        (selectorCall params (posesAtFutureKeyframes SecToNsec NsecToSec h dt t_k gt est W)
          tracked ages new).posesAtFutureKeyframes =
          [{ pose := est * (W⁻¹ * gt t_k), timestampInSec := NsecToSec t_k }])) := by
  have hcast := nrKfInHorizon_cast h dt hh.1 hdt.1
  have hnn := doubleQuotient_nonneg h dt hh.1 hdt.1
  have hb := cRound_bounds _ hnn.2
  have hx := cRound_toDouble_bounds _ hnn.1 hq
  have hcastq : (nrKfInHorizon h dt : ℚ) =
      (cRound (toDouble (toDouble h / toDouble dt)) : ℚ) := by
    rw [← hcast]
    simp
  refine ⟨?_, ?_, ?_, posesAtFutureKeyframes_length _ _ _ _ _ _ _ _, ?_, ?_⟩
  · rw [hcastq]
    exact hb
  · intro x q hxq hqx hx0
    obtain ⟨k, hk⟩ := toDouble_nearest x hx0
    rw [← hqx] at hk
    exact ⟨k, _, rfl, hk⟩
  · rw [hcast]
    exact hx
  · intro kk hkk
    refine ⟨_, posesAtFutureKeyframes_getElem? SecToNsec NsecToSec h dt t_k gt est W kk hkk,
      rfl, ?_⟩
    intro hN hS
    show NsecToSec (t_k + SecToNsec (toDouble ((kk : ℚ) * toDouble dt))) = _
    rw [hN, hN, Int.cast_add, hS]
    field_simp
  · intro h0
    have hlist : posesAtFutureKeyframes SecToNsec NsecToSec h dt t_k gt est W =
        [{ pose := est * (W⁻¹ * gt (t_k + SecToNsec 0))
           timestampInSec := NsecToSec (t_k + SecToNsec 0) }] := by
      unfold posesAtFutureKeyframes
      rw [h0]
      simp [timestamp_kk, List.range_succ, toDouble_zero]
    refine ⟨hlist, ?_⟩
    intro hS0
    show posesAtFutureKeyframes SecToNsec NsecToSec h dt t_k gt est W = _
    rw [hlist, hS0, add_zero]

/-- Witness for C11, with the interval `0.4` that `main` sets (line 152): a
horizon of `3` seconds and keyframes `0.4` seconds apart have the `double`
quotient `7.5`, which gives `8` steps and nine entries, where the exact
quotient of the two `double` values lies just below `7.5` and rounds to `7`;
for a keyframe at `1000000000 ns` the entry of step `3` has the time
`2200000000 ns`. A horizon of `0.7` seconds and keyframes `0.2` seconds apart
give `3` steps, the `double` quotient being just below `3.5`. A horizon of `0`
seconds gives `0` steps and the single entry of the current keyframe. -/
theorem predicted_poses_count_and_stamps_witness :
    (((nrKfInHorizon 3 (2 / 5) : ℚ) ≤ toDouble (toDouble 3 / toDouble (2 / 5)) + 1 / 2 ∧
        toDouble (toDouble 3 / toDouble (2 / 5)) + 1 / 2 <
          (nrKfInHorizon 3 (2 / 5) : ℚ) + 1) ∧
      (∀ x q : ℚ, x = toDouble 3 / toDouble (2 / 5) → q = toDouble x → x ≠ 0 →
        ∃ k e : Int, e = max (Int.log 2 |x|) (-1022) - 52 ∧ q = (k : ℚ) * 2 ^ e ∧
          |k| ≤ 2 ^ 53 ∧ |q - x| ≤ 2 ^ e / 2 ∧ (|q - x| = 2 ^ e / 2 → k % 2 = 0)) ∧
      (cRound (toDouble 3 / toDouble (2 / 5)) ≤ (nrKfInHorizon 3 (2 / 5) : Int) ∧
        (nrKfInHorizon 3 (2 / 5) : Int) ≤ cRound (toDouble 3 / toDouble (2 / 5)) + 1) ∧
      (selectorCall ⟨3, 20, FeatureSelectionCriterion.LOGDET⟩
        (posesAtFutureKeyframes exampleSecToNsec exampleNsecToSec 3 (2 / 5) 1000000000
          exampleGroundTruth (Equiv.swap 0 2) (Equiv.swap 0 1))
        [] [] []).posesAtFutureKeyframes.length = nrKfInHorizon 3 (2 / 5) + 1 ∧
      (∀ kk : Nat, kk ≤ nrKfInHorizon 3 (2 / 5) →
        ∃ e, (selectorCall ⟨3, 20, FeatureSelectionCriterion.LOGDET⟩
            (posesAtFutureKeyframes exampleSecToNsec exampleNsecToSec 3 (2 / 5) 1000000000
              exampleGroundTruth (Equiv.swap 0 2) (Equiv.swap 0 1))
            [] [] []).posesAtFutureKeyframes[kk]? = some e ∧
          e.timestampInSec =
            exampleNsecToSec
              (1000000000 + exampleSecToNsec (toDouble ((kk : ℚ) * toDouble (2 / 5)))) ∧
          ((∀ n : Int, exampleNsecToSec n = (n : ℚ) / 1000000000) →
            ((exampleSecToNsec (toDouble ((kk : ℚ) * toDouble (2 / 5))) : Int) : ℚ)
              = (kk : ℚ) * (2 / 5) * 1000000000 →
            e.timestampInSec = exampleNsecToSec 1000000000 + (kk : ℚ) * (2 / 5))) ∧
      (nrKfInHorizon 3 (2 / 5) = 0 →
        (selectorCall ⟨3, 20, FeatureSelectionCriterion.LOGDET⟩
          (posesAtFutureKeyframes exampleSecToNsec exampleNsecToSec 3 (2 / 5) 1000000000
            exampleGroundTruth (Equiv.swap 0 2) (Equiv.swap 0 1))
          [] [] []).posesAtFutureKeyframes =
          [{ pose := Equiv.swap 0 2 * ((Equiv.swap 0 1)⁻¹ *
               exampleGroundTruth (1000000000 + exampleSecToNsec 0))
             timestampInSec := exampleNsecToSec (1000000000 + exampleSecToNsec 0) }] ∧
        (exampleSecToNsec 0 = 0 →
          (selectorCall ⟨3, 20, FeatureSelectionCriterion.LOGDET⟩
            (posesAtFutureKeyframes exampleSecToNsec exampleNsecToSec 3 (2 / 5) 1000000000
              exampleGroundTruth (Equiv.swap 0 2) (Equiv.swap 0 1))
            [] [] []).posesAtFutureKeyframes =
            [{ pose := Equiv.swap 0 2 * ((Equiv.swap 0 1)⁻¹ * exampleGroundTruth 1000000000)
               timestampInSec := exampleNsecToSec 1000000000 }]))) ∧
    nrKfInHorizon 3 (2 / 5) = 8 ∧
    toDouble (toDouble 3 / toDouble (2 / 5)) = 15 / 2 ∧
    cRound (toDouble 3 / toDouble (2 / 5)) = 7 ∧
    nrKfInHorizon 3 (3602879701896397 / 9007199254740992) = 8 ∧
    nrKfInHorizon (7 / 10) (1 / 5) = 3 ∧
    timestamp_kk exampleSecToNsec (2 / 5) 1000000000 3 = 2200000000 ∧
    nrKfInHorizon 0 (2 / 5) = 0 ∧
    posesAtFutureKeyframes exampleSecToNsec exampleNsecToSec 0 (2 / 5) 1000000000
        exampleGroundTruth (Equiv.swap 0 2) (Equiv.swap 0 1) =
      [{ pose := Equiv.swap 0 2 * ((Equiv.swap 0 1)⁻¹ *
           exampleGroundTruth (1000000000 + exampleSecToNsec 0))
         timestampInSec := exampleNsecToSec (1000000000 + exampleSecToNsec 0) }] :=
  ⟨predicted_poses_count_and_stamps exampleSecToNsec exampleNsecToSec 3 (2 / 5) 1000000000
      exampleGroundTruth (Equiv.swap 0 2) (Equiv.swap 0 1)
      ⟨3, 20, FeatureSelectionCriterion.LOGDET⟩ [] [] [] ⟨by norm_num, by norm_num⟩
      ⟨by rw [toDouble_two_fifths]; norm_num, by norm_num⟩
      (by rw [toDouble_three, toDouble_two_fifths]; norm_num),
    nrKfInHorizon_three_two_fifths,
    by rw [toDouble_three, toDouble_two_fifths, toDouble_three_by_two_fifths],
    by rw [toDouble_three, toDouble_two_fifths]; simp only [cRound]; norm_num,
    nrKfInHorizon_three_double_two_fifths,
    nrKfInHorizon_seven_tenths_one_fifth,
    timestamp_kk_example,
    nrKfInHorizon_zero_two_fifths,
    ((predicted_poses_count_and_stamps exampleSecToNsec exampleNsecToSec 0 (2 / 5) 1000000000
      exampleGroundTruth (Equiv.swap 0 2) (Equiv.swap 0 1)
      ⟨3, 20, FeatureSelectionCriterion.LOGDET⟩ [] [] [] ⟨le_refl 0, by norm_num⟩
      ⟨by rw [toDouble_two_fifths]; norm_num, by norm_num⟩
      (by rw [toDouble_zero, zero_div]; norm_num)).2.2.2.2.2
      nrKfInHorizon_zero_two_fifths).1⟩

/-- C12. In the warm branch the variable `W_Pose_Bkf_gt` holds the ground-truth
pose of the previous keyframe, and with poses as elements of a group every
predicted pose is `latestEstimate * gt(previous keyframe)⁻¹ * gt(horizon
timestamp)`; replacing every ground-truth pose `g` by `T * g`, the estimate
being kept, leaves the whole predicted-pose sequence unchanged; and when the
latest estimate is the ground-truth pose of the previous keyframe each
predicted pose is the ground-truth pose at its horizon timestamp. -/
theorem predicted_poses_use_relative_motion {P : Type} [Group P] (SecToNsec : ℚ → Int)
    (NsecToSec : Int → ℚ) (h dt : ℚ) (t_k : Int) (gt : Int → P) (est : P)
    (processedTimestamps : List Int) (t_prev : Int)
    (hwarm : processedTimestamps.getLast? = some t_prev) :
    W_Pose_Bkf_gt gt processedTimestamps = gt t_prev ∧
    (∀ kk : Nat, kk ≤ nrKfInHorizon h dt →
      ∃ e, (posesAtFutureKeyframes SecToNsec NsecToSec h dt t_k gt est
          (W_Pose_Bkf_gt gt processedTimestamps))[kk]? = some e ∧
        e.pose = est * (gt t_prev)⁻¹ * gt (timestamp_kk SecToNsec dt t_k kk) ∧
        (est = gt t_prev → e.pose = gt (timestamp_kk SecToNsec dt t_k kk))) ∧
    (∀ T : P,
      posesAtFutureKeyframes SecToNsec NsecToSec h dt t_k (fun t => T * gt t) est
          (W_Pose_Bkf_gt (fun t => T * gt t) processedTimestamps) =
        posesAtFutureKeyframes SecToNsec NsecToSec h dt t_k gt est
          (W_Pose_Bkf_gt gt processedTimestamps)) := by
  have hW : ∀ g : Int → P, W_Pose_Bkf_gt g processedTimestamps = g t_prev := by
    intro g
    unfold W_Pose_Bkf_gt
    rw [hwarm]
  refine ⟨hW gt, ?_, ?_⟩
  · intro kk hkk
    refine ⟨_, posesAtFutureKeyframes_getElem? SecToNsec NsecToSec h dt t_k gt est _ kk hkk,
      ?_, ?_⟩
    · show est * ((W_Pose_Bkf_gt gt processedTimestamps)⁻¹ * _) = _
      rw [hW gt, mul_assoc]
    · intro he
      show est * ((W_Pose_Bkf_gt gt processedTimestamps)⁻¹ * _) = _
      rw [hW gt, he, mul_inv_cancel_left]
  · intro T
    unfold posesAtFutureKeyframes
    rw [hW gt, hW (fun t => T * gt t)]
    apply List.map_congr_left
    intro kk _
    simp only [mul_inv_rev, inv_mul_cancel_left, mul_assoc]

/-- Witness for C12: two keyframes processed before, the last at time `6`, in
the group of the rigid motions of a triangle. -/
theorem predicted_poses_use_relative_motion_witness :
    (W_Pose_Bkf_gt exampleGroundTruth [4, 6] = exampleGroundTruth 6 ∧
      (∀ kk : Nat, kk ≤ nrKfInHorizon 3 (2 / 5) →
        ∃ e, (posesAtFutureKeyframes exampleSecToNsec exampleNsecToSec 3 (2 / 5) 8
            exampleGroundTruth (Equiv.swap 0 2)
            (W_Pose_Bkf_gt exampleGroundTruth [4, 6]))[kk]? = some e ∧
          e.pose = Equiv.swap 0 2 * (exampleGroundTruth 6)⁻¹ *
            exampleGroundTruth (timestamp_kk exampleSecToNsec (2 / 5) 8 kk) ∧
          (Equiv.swap 0 2 = exampleGroundTruth 6 →
            e.pose = exampleGroundTruth (timestamp_kk exampleSecToNsec (2 / 5) 8 kk))) ∧
      (∀ T : Equiv.Perm (Fin 3),
        posesAtFutureKeyframes exampleSecToNsec exampleNsecToSec 3 (2 / 5) 8
            (fun t => T * exampleGroundTruth t) (Equiv.swap 0 2)
            (W_Pose_Bkf_gt (fun t => T * exampleGroundTruth t) [4, 6]) =
          posesAtFutureKeyframes exampleSecToNsec exampleNsecToSec 3 (2 / 5) 8
            exampleGroundTruth (Equiv.swap 0 2)
            (W_Pose_Bkf_gt exampleGroundTruth [4, 6]))) ∧
    W_Pose_Bkf_gt exampleGroundTruth [] = 1 :=
  ⟨predicted_poses_use_relative_motion exampleSecToNsec exampleNsecToSec 3 (2 / 5) 8
      exampleGroundTruth (Equiv.swap 0 2) [4, 6] 6 rfl,
    rfl⟩

/-! ## Tracked points handed to the selector: main results -/

/-- C13. In every keyframe processed from a reachable lifecycle state, for
every value of `maxFeatureAge_`, the tracked ages are as many as the tracked
measurements and each lies between `1` and `maxFeatureAge_`, so every
remaining-life value of the selector call, `maxFeatureAge_ - age`, lies
between `0` and `maxFeatureAge_ - 1`. -/
theorem tracked_age_and_life_bounds {Pose Cal : Type} (env : KeyframeEnv Pose Cal)
    (calls : List Call) (os : List NoisyObservation) (s1 : LifecycleState)
    (lists : KeyframeLists)
    (hok : processObservations env
      (reached env.trackerParams.maxFeatureAge_ env.rows calls, KeyframeLists.empty) os
        = Except.ok (s1, lists)) :
    lists.trackerLandmarksAge.length = lists.trackedSmartStereoMeasurements.length ∧
    (∀ a ∈ lists.trackerLandmarksAge, 1 ≤ a ∧ a ≤ env.trackerParams.maxFeatureAge_) ∧
    (∀ (S : Type) (poses : List S),
      ∀ l ∈ (selectorCall env.trackerParams poses lists.trackedkeypoints_3d
          lists.trackerLandmarksAge lists.newSmartStereoMeasurements).keypointLife,
        0 ≤ l ∧ l ≤ env.trackerParams.maxFeatureAge_ - 1) := by
  have h := processObservations_tracked_empty env os _ s1 lists hok
    (reached_agesNonneg _ env.rows calls)
  refine ⟨h.2.1.trans h.1.symm, h.2.2, ?_⟩
  intro S poses l hl
  simp only [selectorCall, keypointLife, List.mem_map] at hl
  obtain ⟨a, ha, rfl⟩ := hl
  have := h.2.2 a ha
  constructor <;> linarith [this.1, this.2]

/-- Witness for C13: second keyframe on the table numbered `0, 1` with
`maxFeatureAge_ = 2`; the one tracked measurement has age `1` and remaining
life `1`. -/
theorem tracked_age_and_life_bounds_witness :
    (([1] : List Int).length = ([measAt 0] : List SmartStereoMeasurement).length ∧
      (∀ a ∈ ([1] : List Int), 1 ≤ a ∧ a ≤ (exampleEnv denseRows 2 [measAt 0]).trackerParams.maxFeatureAge_) ∧
      (∀ (S : Type) (poses : List S),
        ∀ l ∈ (selectorCall (exampleEnv denseRows 2 [measAt 0]).trackerParams poses [(0, 0, 1)]
            [1] [measAt 3]).keypointLife,
          0 ≤ l ∧ l ≤ (exampleEnv denseRows 2 [measAt 0]).trackerParams.maxFeatureAge_ - 1)) ∧
    (selectorCall (exampleEnv denseRows 2 [measAt 0]).trackerParams ([] : List Unit) [(0, 0, 1)]
      [1] [measAt 3]).keypointLife = [1] :=
  ⟨tracked_age_and_life_bounds (exampleEnv denseRows 2 [measAt 0]) [⟨0, []⟩, ⟨1, []⟩]
      [obsAt 1, obsAt 0] (reached 2 denseRows [⟨0, []⟩, ⟨1, []⟩, ⟨1, [0]⟩, ⟨0, [0]⟩])
      { trackedSmartStereoMeasurements := [measAt 0]
        newSmartStereoMeasurements := [measAt 3]
        trackedkeypoints_3d := [(0, 0, 1)]
        trackerLandmarksAge := [1] }
      exampleEnv_second_keyframe,
    by decide⟩

/-! ## Candidates dropped by the selection: main results -/

/-- C15. For every keyframe, whatever the lifecycle state and the observation
list, the vectors of tracked measurements, tracked 3D points and tracked ages
filled by the observation loop have the same length, so does the
remaining-life list built from the ages, and neither the selection of the
keyframe nor a run of the keyframe loop ends with the
keypoint-age-inconsistent error. -/
theorem tracked_vectors_same_length {Pose Cal S : Type} (sim : Simulation Pose Cal)
    (rs : RunState) (kf : KeyframeInput Pose S) :
    (∀ st : LifecycleState × KeyframeLists,
      processObservations (sim.env rs kf) (rs.lifecycle, KeyframeLists.empty) kf.fobs_t
          = Except.ok st →
        st.2.trackedSmartStereoMeasurements.length = st.2.trackedkeypoints_3d.length ∧
        st.2.trackerLandmarksAge.length = st.2.trackedkeypoints_3d.length ∧
        (keypointLife sim.trackerParams st.2.trackerLandmarksAge).length
          = st.2.trackedkeypoints_3d.length ∧
        select sim.trackerParams rs.didFirstOptimization sim.shuffle kf.seedShuffle
            kf.featureSelectionLinearModel kf.posesAtFutureKeyframes st.2.trackedkeypoints_3d
            st.2.trackerLandmarksAge st.2.newSmartStereoMeasurements
          ≠ Except.error SimError.keypointAgeInconsistent) ∧
    processKeyframe sim rs kf ≠ Except.error SimError.keypointAgeInconsistent ∧
    (∀ kfs : List (KeyframeInput Pose S),
      runKeyframes sim rs kfs ≠ Except.error SimError.keypointAgeInconsistent) := by
  refine ⟨?_, processKeyframe_ne_inconsistent sim rs kf,
    fun kfs => runKeyframes_ne_inconsistent sim kfs rs⟩
  intro st hst
  have hlen := processObservations_lengths (sim.env rs kf) kf.fobs_t _ st hst rfl rfl
  refine ⟨hlen.1, hlen.2, ?_, select_error _ _ _ _ _ _ _ _ _ hlen.2⟩
  simp [keypointLife, hlen.2]

/-- Witness for C15: second keyframe on the table numbered `0, 1`, with one
tracked measurement, one tracked point, one tracked age and one remaining-life
value. -/
theorem tracked_vectors_same_length_witness :
    ([measAt 0] : List SmartStereoMeasurement).length = ([(0, 0, 1)] : List Vector3).length ∧
    ([1] : List Int).length = ([(0, 0, 1)] : List Vector3).length ∧
    (keypointLife (exampleSimulation denseRows 2).trackerParams [1]).length
      = ([(0, 0, 1)] : List Vector3).length ∧
    processKeyframe (exampleSimulation denseRows 2)
      { lifecycle := reached 2 denseRows [⟨0, []⟩, ⟨1, []⟩]
        previousSmartStereoMeasurements := [measAt 0]
        didFirstOptimization := true }
      (exampleKeyframe [1, 0]) ≠ Except.error SimError.keypointAgeInconsistent :=
  have h := tracked_vectors_same_length (exampleSimulation denseRows 2)
    { lifecycle := reached 2 denseRows [⟨0, []⟩, ⟨1, []⟩]
      previousSmartStereoMeasurements := [measAt 0]
      didFirstOptimization := true }
    (exampleKeyframe [1, 0])
  have hl := h.1
    (reached 2 denseRows [⟨0, []⟩, ⟨1, []⟩, ⟨1, [0]⟩, ⟨0, [0]⟩],
      { trackedSmartStereoMeasurements := [measAt 0]
        newSmartStereoMeasurements := [measAt 3]
        trackedkeypoints_3d := [(0, 0, 1)]
        trackerLandmarksAge := [1] })
    exampleEnv_second_keyframe
  ⟨hl.1, hl.2.1, hl.2.2.1, h.2.1⟩

end StereoVIOSimulation
